import Mathlib

/-!
# OpenGLComponent: context lifecycle and composited surface cache

A shallow embedding of `modules/juce_opengl/opengl/juce_OpenGLComponent.cpp`.

The component is a record of its member variables.  Everything the component
calls on a collaborator (the context, the frame buffer, the three consumer
hooks, the GL calls) is appended to a chronological log kept next to the
members, so that ordering properties can be stated about the log.  The two
platform calls whose outcome the component cannot predict (`createContext`
and `OpenGLContext::makeActive`) are answered by an oracle indexed by the
number of oracle questions asked so far.
-/

namespace JuceOpenGL

/-! ## OpenGLPixelFormat -/

/-- The pixel format attribute record (lines 30-92). -/
structure OpenGLPixelFormat where
  redBits : Int
  greenBits : Int
  blueBits : Int
  alphaBits : Int
  depthBufferBits : Int
  stencilBufferBits : Int
  accumulationBufferRedBits : Int
  accumulationBufferGreenBits : Int
  accumulationBufferBlueBits : Int
  accumulationBufferAlphaBits : Int
  multisamplingLevel : Int
  deriving DecidableEq, Repr

/-- The four-argument constructor (lines 30-46). -/
def OpenGLPixelFormat.create (bitsPerRGBComponent alphaBits_ depthBufferBits_
    stencilBufferBits_ : Int) : OpenGLPixelFormat :=
  { redBits := bitsPerRGBComponent
    greenBits := bitsPerRGBComponent
    blueBits := bitsPerRGBComponent
    alphaBits := alphaBits_
    depthBufferBits := depthBufferBits_
    stencilBufferBits := stencilBufferBits_
    accumulationBufferRedBits := 0
    accumulationBufferGreenBits := 0
    accumulationBufferBlueBits := 0
    accumulationBufferAlphaBits := 0
    multisamplingLevel := 0 }

/-- The field-wise comparison `operator==` (lines 79-92). -/
def OpenGLPixelFormat.equals (a other : OpenGLPixelFormat) : Bool :=
  decide (a.redBits = other.redBits)
    && decide (a.greenBits = other.greenBits)
    && decide (a.blueBits = other.blueBits)
    && decide (a.alphaBits = other.alphaBits)
    && decide (a.depthBufferBits = other.depthBufferBits)
    && decide (a.stencilBufferBits = other.stencilBufferBits)
    && decide (a.accumulationBufferRedBits = other.accumulationBufferRedBits)
    && decide (a.accumulationBufferGreenBits = other.accumulationBufferGreenBits)
    && decide (a.accumulationBufferBlueBits = other.accumulationBufferBlueBits)
    && decide (a.accumulationBufferAlphaBits = other.accumulationBufferAlphaBits)
    && decide (a.multisamplingLevel = other.multisamplingLevel)

/-! ## Machine integers -/

/-- The value a C++ `int` (32 bits, two's complement) holds after an
arithmetic result `x` is stored in it: `x` itself when it fits, wrapped
around otherwise. -/
def wrapInt (x : Int) : Int :=
  (x + 2147483648) % 4294967296 - 2147483648

/-- A width or height `w` to which the slack of 128 can be added in a C++
`int` without overflow: `INT_MIN ≤ w ≤ INT_MAX - 128`. -/
def slackFits (w : Int) : Prop :=
  -2147483648 ≤ w ∧ w ≤ 2147483647 - 128

instance (w : Int) : Decidable (slackFits w) := by
  unfold slackFits; infer_instance

/-! ## Regions -/

/-- Modelled from the spec: `RectangleList` is declared outside this file; the
spec calls it "a set of rectangles denoting which parts of frameBuffer already
reflect the current widget-tree paint".  It is represented by the set of
pixels the rectangles cover, so `clear` is the empty set, `subtract` is set
difference and `isEmpty` is emptiness. -/
abbrev RectangleList := Finset (Int × Int)

/-- The region covered by `Rectangle<int> (x, y, w, h)`; a rectangle with no
area covers nothing. -/
def RectangleList.ofRectangle (x y w h : Int) : RectangleList :=
  Finset.Ico x (x + w) ×ˢ Finset.Ico y (y + h)

/-! ## The log of collaborator calls -/

/-- The three virtual consumer hooks of OpenGLComponent. -/
inductive Hook where
  | newOpenGLContextCreated
  | renderOpenGL
  | releaseOpenGLContext
  deriving DecidableEq, Repr

/-- One call made by the component on a collaborator.  Contexts are named by a
handle.  A hook entry also records the handle of the context the component
owns at the moment the hook is entered (`none` when `context == nullptr`). -/
inductive Event where
  | createContext (format : OpenGLPixelFormat) (share : Option Nat) (made : Bool)
  | makeActive (handle : Nat) (ok : Bool)
  | makeInactive (handle : Nat)
  | swapBuffers (handle : Nat)
  | contextDeleted (handle : Nat)
  | hook (h : Hook) (owned : Option Nat)
  | glViewport (w h : Int)
  | updateEmbeddedPosition (w h : Int)
  | repaint
  | setCachedComponentImageNull
  | addMaskedRegion (w h : Int)
  | startThread (priority : Nat)
  | stopThread (timeOutMs : Nat)
  | frameBufferInitialise (w h : Int)
  | clipToRectangleList (clip : RectangleList)
  | fillRect (w h : Int)
  | paintOwner (clip : RectangleList)
  | prepareFor2D (w h : Int)
  | glBlendFunc
  | glEnable
  | glColor4f
  | drawAt (x y : Int)
  deriving DecidableEq

/-! ## Platform -/

/-- What the build and the platform decide.  `linux` stands for `JUCE_LINUX`.
`useBackgroundThread` and `allowSubComponents` are the bit masks of the
`OpenGLFlags` enumeration, declared in the header.  `createContext t f c`
answers the virtual `createContext()` asked as oracle question number `t`
while `preferredPixelFormat = f` and `contextToShareListsWith = c`: `none` for
a null result, `some id` for a context whose `getFrameBufferID()` is `id`.
`makeActive t h` answers `makeActive()` on the context with handle `h`.
`lockWasGained t` tells, for a render thread that is stopped when `t` oracle
questions have been asked, whether its `run` had gained the message-manager
lock (`mml.lockWasGained()`, lines 166-169 of a Linux build). -/
structure Platform where
  linux : Bool
  useBackgroundThread : Nat
  allowSubComponents : Nat
  createContext : Nat → OpenGLPixelFormat → Option Nat → Option Nat
  makeActive : Nat → Nat → Bool
  lockWasGained : Nat → Bool

/-! ## OpenGLContext -/

/-- An owned context.  `pixelFormat` and `sharedWith` are the values of
`preferredPixelFormat` and `contextToShareListsWith` that `createContext()`
saw when it made this context; `active` is what `isActive()` would answer. -/
structure OpenGLContext where
  handle : Nat
  pixelFormat : OpenGLPixelFormat
  sharedWith : Option Nat
  frameBufferID : Nat
  active : Bool
  deriving DecidableEq, Repr

/-! ## OpenGLComponent -/

/-- The members of OpenGLComponent, the parts of its Component base class the
file reads (`getWidth`, `getHeight`, `isShowing`, the top-level peer, whether a
cached image is installed), the oracle question counter and the log. -/
structure OpenGLComponent where
  flags : Nat
  preferredPixelFormat : OpenGLPixelFormat
  contextToShareListsWith : Option Nat
  context : Option OpenGLContext
  needToUpdateViewport : Bool
  needToDeleteContext : Bool
  threadStarted : Bool
  renderThread : Bool
  cachedImageInstalled : Bool
  width : Int
  height : Int
  showing : Bool
  peer : Bool
  tick : Nat
  trace : List Event

/-- The constructor (lines 379-389).  `preferredPixelFormat` is
default-constructed from the header's default arguments, taken here as the
parameter `format`.  A new Component has no size, no peer and is not
showing. -/
def OpenGLComponent.create (flags_ : Nat) (format : OpenGLPixelFormat) : OpenGLComponent :=
  { flags := flags_
    preferredPixelFormat := format
    contextToShareListsWith := none
    context := none
    needToUpdateViewport := true
    needToDeleteContext := false
    threadStarted := false
    renderThread := false
    cachedImageInstalled := true
    width := 0
    height := 0
    showing := false
    peer := false
    tick := 0
    trace := [] }

/-- Append one entry to the log. -/
def emit (s : OpenGLComponent) (e : Event) : OpenGLComponent :=
  { s with trace := s.trace ++ [e] }

/-- The header's `isUsingDedicatedThread()`: the `useBackgroundThread` flag. -/
def isUsingDedicatedThread (P : Platform) (s : OpenGLComponent) : Bool :=
  s.flags &&& P.useBackgroundThread != 0

/-- The call `context->makeActive()`; every caller has checked
`context != nullptr` first.  Success makes the context current. -/
def contextMakeActive (P : Platform) (s : OpenGLComponent) : Bool × OpenGLComponent :=
  match s.context with
  | none => (false, s)
  | some c =>
    let ok := P.makeActive s.tick c.handle
    (ok, { s with
      tick := s.tick + 1
      context := some { c with active := ok || c.active }
      trace := s.trace ++ [Event.makeActive c.handle ok] })

/-- The call `context->makeInactive()`; every caller has checked
`context != nullptr` first. -/
def contextMakeInactive (s : OpenGLComponent) : OpenGLComponent :=
  match s.context with
  | none => s
  | some c =>
    { s with
      context := some { c with active := false }
      trace := s.trace ++ [Event.makeInactive c.handle] }

/-- Lines 424-427. -/
def makeCurrentRenderingTarget (P : Platform) (s : OpenGLComponent) : Bool × OpenGLComponent :=
  match s.context with
  | none => (false, s)
  | some _ => contextMakeActive P s

/-- Lines 429-433. -/
def releaseAsRenderingTarget (s : OpenGLComponent) : OpenGLComponent :=
  match s.context with
  | none => s
  | some _ => contextMakeInactive s

/-- Lines 435-439. -/
def swapBuffers (s : OpenGLComponent) : OpenGLComponent :=
  match s.context with
  | none => s
  | some c => emit s (Event.swapBuffers c.handle)

/-- Enter a consumer hook; the hook itself does not call back into the
component. -/
def callHook (s : OpenGLComponent) (h : Hook) : OpenGLComponent :=
  emit s (Event.hook h (s.context.map OpenGLContext.handle))

/-- Lines 417-422. -/
def recreateContextAsync (s : OpenGLComponent) : OpenGLComponent :=
  emit { s with needToDeleteContext := true } Event.repaint

/-- Lines 397-405. -/
def setPixelFormat (formatToUse : OpenGLPixelFormat) (s : OpenGLComponent) : OpenGLComponent :=
  if !(s.preferredPixelFormat.equals formatToUse) then
    recreateContextAsync { s with preferredPixelFormat := formatToUse }
  else s

/-- Lines 407-415; a context pointer is its handle, `none` for `nullptr`. -/
def shareWith (c : Option Nat) (s : OpenGLComponent) : OpenGLComponent :=
  if s.contextToShareListsWith ≠ c then
    recreateContextAsync { s with contextToShareListsWith := c }
  else s

/-- Lines 489-503. -/
def updateContextPosition (s : OpenGLComponent) : OpenGLComponent :=
  let s := { s with needToUpdateViewport := true }
  if s.width > 0 ∧ s.height > 0 then
    if s.peer then emit s (Event.updateEmbeddedPosition s.width s.height) else s
  else s

/-- Lines 471-487. -/
def deleteContext (P : Platform) (s : OpenGLComponent) : OpenGLComponent :=
  let s :=
    match s.context with
    | some c =>
      let (ok, s) := contextMakeActive P s
      let s :=
        if ok then
          let s := callHook s Hook.releaseOpenGLContext
          contextMakeInactive s
        else s
      let s := emit { s with context := none } (Event.contextDeleted c.handle)
      emit { s with cachedImageInstalled := false } Event.setCachedComponentImageNull
    | none => s
  { s with needToDeleteContext := false }

/-- The virtual `createContext()`: asks the platform for a context for the
current `preferredPixelFormat` and `contextToShareListsWith`.  A new context
takes the question number as its handle and is not active. -/
def createContext (P : Platform) (s : OpenGLComponent) : OpenGLComponent :=
  let made := P.createContext s.tick s.preferredPixelFormat s.contextToShareListsWith
  { s with
    tick := s.tick + 1
    context := made.map (fun id =>
      { handle := s.tick
        pixelFormat := s.preferredPixelFormat
        sharedWith := s.contextToShareListsWith
        frameBufferID := id
        active := false })
    trace := s.trace ++
      [Event.createContext s.preferredPixelFormat s.contextToShareListsWith made.isSome] }

/-- Lines 441-469. -/
def updateContext (P : Platform) (s : OpenGLComponent) : OpenGLComponent :=
  let s := if s.needToDeleteContext then deleteContext P s else s
  match s.context with
  | some _ => s
  | none =>
    let s := createContext P s
    match s.context with
    | none => s
    | some _ =>
      let s := if !P.linux || !isUsingDedicatedThread P s then updateContextPosition s else s
      let (ok, s) := contextMakeActive P s
      if ok then
        let s := callHook s Hook.newOpenGLContextCreated
        contextMakeInactive s
      else s

/-- Lines 514-538. -/
def renderAndSwapBuffers (P : Platform) (s : OpenGLComponent) : Bool × OpenGLComponent :=
  let s := if P.linux then updateContext P s else s
  match s.context with
  | none => (true, s)
  | some _ =>
    let (ok, s) := makeCurrentRenderingTarget P s
    if !ok then (false, s)
    else
      let s :=
        if s.needToUpdateViewport then
          emit { s with needToUpdateViewport := false } (Event.glViewport s.width s.height)
        else s
      let s := callHook s Hook.renderOpenGL
      let s := swapBuffers s
      (true, s)

/-- How `OpenGLComponentRenderThread::run` (lines 162-190) ends once the
thread is asked to stop.  Without `JUCE_LINUX` it just returns.  In a Linux
build it has returned at lines 168-169, without touching the context, when the
message-manager lock was not gained; otherwise it leaves the frame loop and
deletes the context from the worker (line 188). -/
def runExit (P : Platform) (s : OpenGLComponent) : OpenGLComponent :=
  if P.linux then
    if P.lockWasGained s.tick then deleteContext P s else s
  else s

/-- Lines 198-204. -/
def startRenderThread (s : OpenGLComponent) : OpenGLComponent :=
  emit { s with renderThread := true } (Event.startThread 6)

/-- Lines 206-217.  `stopThread (5000)` returns once `run` has returned, so the
end of `run` is executed here; what the worker did before (the start of `run`
and the frames it rendered) happens on the worker thread and is not sequenced
in this model. -/
def stopRenderThread (P : Platform) (s : OpenGLComponent) : OpenGLComponent :=
  let s :=
    if s.renderThread then
      let s := runExit P (emit s (Event.stopThread 5000))
      { s with renderThread := false }
    else s
  if !P.linux then deleteContext P s else s

/-- Lines 505-512. -/
def stopBackgroundThread (P : Platform) (s : OpenGLComponent) : OpenGLComponent :=
  if s.threadStarted then
    let s := stopRenderThread P s
    { s with threadStarted := false }
  else s

/-- Lines 140-144 of OpenGLComponentWatcher. -/
def componentVisibilityChanged (P : Platform) (s : OpenGLComponent) : OpenGLComponent :=
  if !s.showing then stopBackgroundThread P s else s

/-- Lines 135-138 of OpenGLComponentWatcher. -/
def componentPeerChanged (s : OpenGLComponent) : OpenGLComponent :=
  recreateContextAsync s

/-- Lines 130-133 of OpenGLComponentWatcher. -/
def componentMovedOrResized (s : OpenGLComponent) : OpenGLComponent :=
  updateContextPosition s

/-! ## OpenGLCachedComponentImage -/

/-- Modelled from the spec: `OpenGLFrameBuffer` is declared outside this file.
The spec calls it an "owned offscreen GPU-readable/writable buffer", "allocated
or reallocated lazily"; it is represented by what `isValid()`, `getWidth()` and
`getHeight()` answer. -/
structure OpenGLFrameBuffer where
  valid : Bool
  width : Int
  height : Int
  deriving DecidableEq, Repr

/-- Modelled from the spec: `frameBuffer.initialise (w, h)` allocates a valid
buffer of the size asked for. -/
def OpenGLFrameBuffer.initialise (w h : Int) : OpenGLFrameBuffer :=
  { valid := true, width := w, height := h }

/-- Modelled from the spec: `frameBuffer.release()` frees the storage; a buffer
with no storage is not valid and has no size.  This is also the state of a
default-constructed buffer. -/
def OpenGLFrameBuffer.release : OpenGLFrameBuffer :=
  { valid := false, width := 0, height := 0 }

/-- The members of OpenGLCachedComponentImage (lines 371-373) and the state of
its Timer base class: `none` when the timer is stopped, else the interval. -/
structure OpenGLCachedComponentImage where
  frameBuffer : OpenGLFrameBuffer
  validArea : RectangleList
  timerInterval : Option Nat

/-- The constructor (lines 225-228). -/
def OpenGLCachedComponentImage.create : OpenGLCachedComponentImage :=
  { frameBuffer := OpenGLFrameBuffer.release, validArea := ∅, timerInterval := none }

/-- Lines 337-341. -/
def triggerRepaint (P : Platform) (s : OpenGLComponent) (img : OpenGLCachedComponentImage) :
    OpenGLCachedComponentImage :=
  if !isUsingDedicatedThread P s then { img with timerInterval := some (1000 / 70) } else img

/-- Lines 264-268. -/
def invalidateAll (P : Platform) (s : OpenGLComponent) (img : OpenGLCachedComponentImage) :
    OpenGLCachedComponentImage :=
  triggerRepaint P s { img with validArea := ∅ }

/-- Lines 270-274. -/
def invalidate (P : Platform) (s : OpenGLComponent) (x y w h : Int)
    (img : OpenGLCachedComponentImage) : OpenGLCachedComponentImage :=
  triggerRepaint P s { img with validArea := img.validArea \ RectangleList.ofRectangle x y w h }

/-- Lines 276-279. -/
def releaseResources (img : OpenGLCachedComponentImage) : OpenGLCachedComponentImage :=
  { img with frameBuffer := OpenGLFrameBuffer.release }

/-- Lines 344-369: the child widget tree is painted through a renderer whose
clip region is `clip`; an exception is swallowed. -/
def paintOwner (s : OpenGLComponent) (clip : RectangleList) : OpenGLComponent :=
  emit s (Event.paintOwner clip)

/-- Lines 288-301 of timerCallback: the frame buffer is reallocated at the size
of `bounds = getLocalBounds()`, the rectangle `(0, 0, getWidth(), getHeight())`,
when it is smaller than the bounds, more than 128 larger, or not valid.  The
sums `bounds.getWidth() + 128` and `bounds.getHeight() + 128` are C++ `int`
sums. -/
def resizeFrameBuffer (img : OpenGLCachedComponentImage) (s : OpenGLComponent) :
    OpenGLCachedComponentImage × OpenGLComponent :=
  let fbW := img.frameBuffer.width
  let fbH := img.frameBuffer.height
  if fbW < s.width ∨ fbH < s.height ∨ fbW > wrapInt (s.width + 128)
      ∨ fbH > wrapInt (s.height + 128) ∨ img.frameBuffer.valid = false then
    ({ img with
        frameBuffer := OpenGLFrameBuffer.initialise s.width s.height
        validArea := ∅ },
      emit s (Event.frameBufferInitialise s.width s.height))
  else (img, s)

/-- Lines 307-330 of timerCallback, the body of the `allowSubComponents`
branch.  The two `setFill` calls, which only choose a colour, are not
logged. -/
def compositeSubComponents (P : Platform) (img : OpenGLCachedComponentImage)
    (s : OpenGLComponent) : OpenGLCachedComponentImage × OpenGLComponent :=
  let invalid := RectangleList.ofRectangle 0 0 s.width s.height \ img.validArea
  let img := { img with validArea := RectangleList.ofRectangle 0 0 s.width s.height }
  let s :=
    if invalid ≠ ∅ then
      let s := emit s (Event.clipToRectangleList invalid)
      let s := emit s (Event.fillRect s.width s.height)
      paintOwner s invalid
    else s
  let s := (makeCurrentRenderingTarget P s).2
  let s := emit s (Event.prepareFor2D s.width s.height)
  let s := emit s Event.glBlendFunc
  let s := emit s Event.glEnable
  let s := emit s Event.glColor4f
  let s := emit s (Event.drawAt 0 (wrapInt (s.height - img.frameBuffer.height)))
  (img, s)

/-- Lines 281-335. -/
def timerCallback (P : Platform) (img : OpenGLCachedComponentImage) (s : OpenGLComponent) :
    OpenGLCachedComponentImage × OpenGLComponent :=
  let img := { img with timerInterval := none }
  let r := makeCurrentRenderingTarget P s
  if !r.1 then (img, r.2)
  else
    let r := resizeFrameBuffer img r.2
    let s := callHook r.2 Hook.renderOpenGL
    let r :=
      if s.flags &&& P.allowSubComponents != 0 then compositeSubComponents P r.1 s
      else (r.1, s)
    let s := swapBuffers r.2
    (r.1, releaseAsRenderingTarget s)

/-- Lines 230-262: the cached image's paint.  The masked region is the
component's rectangle in the peer, of which the size is logged.  updateContext
(lines 245 and 257) may run deleteContext, whose line 483 destroys the very
image that is painting; lines 248 and 259 then read a freed object (its
`owner` reference, its timer), and the result is `none`: the behaviour is
undefined. -/
def paint (P : Platform) (img : OpenGLCachedComponentImage) (s : OpenGLComponent) :
    Option (OpenGLCachedComponentImage × OpenGLComponent) :=
  let s := if s.peer then emit s (Event.addMaskedRegion s.width s.height) else s
  if isUsingDedicatedThread P s then
    if s.peer && s.showing then
      let s := if !P.linux then updateContext P s else s
      if !s.cachedImageInstalled then none
      else if !s.threadStarted then
        some (img, startRenderThread { s with threadStarted := true })
      else some (img, s)
    else some (img, s)
  else
    let s := updateContext P s
    if !s.cachedImageInstalled then none
    else if img.timerInterval.isSome then some (timerCallback P img s)
    else some (img, s)

/-! ## Sequences of requests and reachable states -/

/-- A request to change what the next context is created for. -/
inductive Request where
  | setPixelFormat (formatToUse : OpenGLPixelFormat)
  | shareWith (c : Option Nat)

/-- Make one request. -/
def Request.run : Request → OpenGLComponent → OpenGLComponent
  | Request.setPixelFormat f, s => JuceOpenGL.setPixelFormat f s
  | Request.shareWith c, s => JuceOpenGL.shareWith c s

/-- Make a sequence of requests, first to last. -/
def runRequests (rs : List Request) (s : OpenGLComponent) : OpenGLComponent :=
  rs.foldl (fun s r => r.run s) s

/-- The format of the last setPixelFormat request of a sequence; `start`, the
format in force before the sequence, when it has none. -/
def lastFormat (rs : List Request) (start : OpenGLPixelFormat) : OpenGLPixelFormat :=
  rs.foldl (fun f r => match r with
    | Request.setPixelFormat g => g
    | Request.shareWith _ => f) start

/-- The share target of the last shareWith request of a sequence; `start`, the
target in force before the sequence, when it has none. -/
def lastShare (rs : List Request) (start : Option Nat) : Option Nat :=
  rs.foldl (fun c r => match r with
    | Request.setPixelFormat _ => c
    | Request.shareWith d => d) start

/-- The states a component can be in: the constructor's, and those the
operations of this file and changes of the Component base class (size,
visibility, peer) lead to from there.  A paint whose behaviour is undefined
leads nowhere; the registration of the masked region, with which every paint
starts, is a step of its own. -/
inductive Reachable (P : Platform) : OpenGLComponent → Prop where
  | create (flags : Nat) (format : OpenGLPixelFormat) :
      Reachable P (OpenGLComponent.create flags format)
  | setPixelFormat (f : OpenGLPixelFormat) (s : OpenGLComponent) :
      Reachable P s → Reachable P (JuceOpenGL.setPixelFormat f s)
  | shareWith (c : Option Nat) (s : OpenGLComponent) :
      Reachable P s → Reachable P (JuceOpenGL.shareWith c s)
  | recreateContextAsync (s : OpenGLComponent) :
      Reachable P s → Reachable P (JuceOpenGL.recreateContextAsync s)
  | updateContext (s : OpenGLComponent) :
      Reachable P s → Reachable P (JuceOpenGL.updateContext P s)
  | deleteContext (s : OpenGLComponent) :
      Reachable P s → Reachable P (JuceOpenGL.deleteContext P s)
  | updateContextPosition (s : OpenGLComponent) :
      Reachable P s → Reachable P (JuceOpenGL.updateContextPosition s)
  | makeCurrentRenderingTarget (s : OpenGLComponent) :
      Reachable P s → Reachable P (JuceOpenGL.makeCurrentRenderingTarget P s).2
  | releaseAsRenderingTarget (s : OpenGLComponent) :
      Reachable P s → Reachable P (JuceOpenGL.releaseAsRenderingTarget s)
  | swapBuffers (s : OpenGLComponent) :
      Reachable P s → Reachable P (JuceOpenGL.swapBuffers s)
  | renderAndSwapBuffers (s : OpenGLComponent) :
      Reachable P s → Reachable P (JuceOpenGL.renderAndSwapBuffers P s).2
  | startRenderThread (s : OpenGLComponent) :
      Reachable P s → Reachable P (JuceOpenGL.startRenderThread s)
  | stopRenderThread (s : OpenGLComponent) :
      Reachable P s → Reachable P (JuceOpenGL.stopRenderThread P s)
  | stopBackgroundThread (s : OpenGLComponent) :
      Reachable P s → Reachable P (JuceOpenGL.stopBackgroundThread P s)
  | componentVisibilityChanged (s : OpenGLComponent) :
      Reachable P s → Reachable P (JuceOpenGL.componentVisibilityChanged P s)
  | timerCallback (img : OpenGLCachedComponentImage) (s : OpenGLComponent) :
      Reachable P s → Reachable P (JuceOpenGL.timerCallback P img s).2
  | addMaskedRegion (w h : Int) (s : OpenGLComponent) :
      Reachable P s → Reachable P (emit s (Event.addMaskedRegion w h))
  | paint (img : OpenGLCachedComponentImage) (s : OpenGLComponent)
      (r : OpenGLCachedComponentImage × OpenGLComponent) :
      Reachable P s → JuceOpenGL.paint P img s = some r → Reachable P r.2
  | component (w h : Int) (showing peer : Bool) (s : OpenGLComponent) :
      Reachable P s →
      Reachable P { s with width := w, height := h, showing := showing, peer := peer }

/-- Unless a recreation is pending, the owned context was created for the
format and the share target now in force. -/
def UpToDate (s : OpenGLComponent) : Prop :=
  s.needToDeleteContext = false →
    ∀ c, s.context = some c →
      c.pixelFormat = s.preferredPixelFormat ∧ c.sharedWith = s.contextToShareListsWith

/-! ## Reading the log -/

/-- The entries an operation added to the log, given the state before it and
the state after it. -/
def eventsSince (s s' : OpenGLComponent) : List Event :=
  s'.trace.drop s.trace.length

/-- Whether an entry is a glViewport call. -/
def Event.isViewport : Event → Bool
  | Event.glViewport _ _ => true
  | _ => false

/-- Whether an entry is a makeInactive call. -/
def Event.isMakeInactive : Event → Bool
  | Event.makeInactive _ => true
  | _ => false

/-- Whether an entry is a rasterization of the child widget tree. -/
def Event.isPaintOwner : Event → Bool
  | Event.paintOwner _ => true
  | _ => false

/-- The context that is current after one more entry, given the context `cur`
that was current before it: a successful makeActive makes its context
current; a failed makeActive, a makeInactive and the destruction of a context
leave none current. -/
def activeStep (cur : Option Nat) : Event → Option Nat
  | Event.makeActive h ok => if ok then some h else none
  | Event.makeInactive _ => none
  | Event.contextDeleted _ => none
  | _ => cur

/-- An entry is allowed when it is not a hook, or when some context is current
and it is the context the component owns as the hook is entered. -/
def hookAllowed (cur : Option Nat) : Event → Bool
  | Event.hook _ owned => cur.isSome && cur == owned
  | _ => true

/-- Reading a log from the start with `cur` current: every hook is entered
after a makeActive on the owned context that returned true, with no
makeInactive (and no failed makeActive or destruction) in between. -/
def hooksGuarded : Option Nat → List Event → Bool
  | _, [] => true
  | cur, e :: es => hookAllowed cur e && hooksGuarded (activeStep cur e) es

/-- The context that is current at the end of a log. -/
def activeAfter (cur : Option Nat) (es : List Event) : Option Nat :=
  es.foldl activeStep cur

/-- Whether an entry is the entering of the releaseOpenGLContext hook. -/
def Event.isReleaseHook : Event → Bool
  | Event.hook Hook.releaseOpenGLContext _ => true
  | _ => false

/-- Whether no releaseOpenGLContext hook is entered after the context has been
destroyed somewhere earlier in the log. -/
def releaseBeforeDeletion : List Event → Bool
  | [] => true
  | Event.contextDeleted _ :: es => es.all (fun e => !e.isReleaseHook)
  | _ :: es => releaseBeforeDeletion es

/-! ## What each operation adds to the log -/

/-- The state in which renderAndSwapBuffers reaches its `context != nullptr`
test: a Linux build has run updateContext by then. -/
def atActivation (P : Platform) (s : OpenGLComponent) : OpenGLComponent :=
  if P.linux then updateContext P s else s

/-- The entries renderAndSwapBuffers adds to the log from its activation on,
when the activation of context `c` succeeds. -/
def frameEvents (a : OpenGLComponent) (c : OpenGLContext) : List Event :=
  [Event.makeActive c.handle true]
    ++ (if a.needToUpdateViewport then [Event.glViewport a.width a.height] else [])
    ++ [Event.hook Hook.renderOpenGL (some c.handle), Event.swapBuffers c.handle]

/-- The entries updateContextPosition adds to the log. -/
def positionEvents (s : OpenGLComponent) : List Event :=
  if 0 < s.width ∧ 0 < s.height ∧ s.peer = true then
    [Event.updateEmbeddedPosition s.width s.height]
  else []

/-- Whether updateContext repositions a context it has just created (line
456-459). -/
def repositions (P : Platform) (s : OpenGLComponent) : Bool :=
  !P.linux || !isUsingDedicatedThread P s

/-- The entries updateContext adds to the log, after the createContext entry,
when it has just created a context with handle `h`. -/
def creationEvents (P : Platform) (s : OpenGLComponent) (h : Nat) : List Event :=
  (if repositions P s then positionEvents s else [])
    ++ [Event.makeActive h (P.makeActive (s.tick + 1) h)]
    ++ (if P.makeActive (s.tick + 1) h then
          [Event.hook Hook.newOpenGLContextCreated (some h), Event.makeInactive h]
        else [])

/-! ## The steps of timerCallback as functions of its input -/

/-- The test of lines 293-297. -/
def reallocates (img : OpenGLCachedComponentImage) (s : OpenGLComponent) : Bool :=
  decide (img.frameBuffer.width < s.width ∨ img.frameBuffer.height < s.height
    ∨ img.frameBuffer.width > wrapInt (s.width + 128)
    ∨ img.frameBuffer.height > wrapInt (s.height + 128)
    ∨ img.frameBuffer.valid = false)

/-- The frame buffer after lines 293-301. -/
def bufferAfter (img : OpenGLCachedComponentImage) (s : OpenGLComponent) : OpenGLFrameBuffer :=
  if reallocates img s then OpenGLFrameBuffer.initialise s.width s.height else img.frameBuffer

/-- The valid region after lines 293-301. -/
def validAfterResize (img : OpenGLCachedComponentImage) (s : OpenGLComponent) : RectangleList :=
  if reallocates img s then ∅ else img.validArea

/-- The region `invalid` of lines 308-309. -/
def invalidRegion (img : OpenGLCachedComponentImage) (s : OpenGLComponent) : RectangleList :=
  RectangleList.ofRectangle 0 0 s.width s.height \ validAfterResize img s

/-- The test of line 305. -/
def composites (P : Platform) (s : OpenGLComponent) : Bool :=
  s.flags &&& P.allowSubComponents != 0

/-- The entries lines 305-331 add to the log. -/
def compositeEvents (P : Platform) (img : OpenGLCachedComponentImage) (s : OpenGLComponent)
    (c : OpenGLContext) : List Event :=
  if composites P s then
    (if invalidRegion img s ≠ ∅ then
        [Event.clipToRectangleList (invalidRegion img s), Event.fillRect s.width s.height,
          Event.paintOwner (invalidRegion img s)]
      else [])
    ++ [Event.makeActive c.handle (P.makeActive (s.tick + 1) c.handle),
        Event.prepareFor2D s.width s.height, Event.glBlendFunc, Event.glEnable, Event.glColor4f,
        Event.drawAt 0 (wrapInt (s.height - (bufferAfter img s).height))]
  else []

/-- The entries a timerCallback whose first activation succeeds adds to the
log. -/
def passEvents (P : Platform) (img : OpenGLCachedComponentImage) (s : OpenGLComponent)
    (c : OpenGLContext) : List Event :=
  [Event.makeActive c.handle true]
    ++ (if reallocates img s then [Event.frameBufferInitialise s.width s.height] else [])
    ++ [Event.hook Hook.renderOpenGL (some c.handle)]
    ++ compositeEvents P img s c
    ++ [Event.swapBuffers c.handle, Event.makeInactive c.handle]

/-- The spec's inequality `bounds ≤ size ≤ bounds + 128` in each axis, for a
buffer `fb` and bounds of width `w` and height `h`. -/
def withinSlack (fb : OpenGLFrameBuffer) (w h : Int) : Prop :=
  (w ≤ fb.width ∧ fb.width ≤ w + 128) ∧ (h ≤ fb.height ∧ fb.height ≤ h + 128)

instance (fb : OpenGLFrameBuffer) (w h : Int) : Decidable (withinSlack fb w h) := by
  unfold withinSlack; infer_instance

/-! ## Sample inputs -/

/-- A desktop build on which every context creation and every activation
succeeds; the flag masks are sample values. -/
def samplePlatform : Platform :=
  { linux := false
    useBackgroundThread := 4
    allowSubComponents := 8
    createContext := fun _ _ _ => some 1
    makeActive := fun _ _ => true
    lockWasGained := fun _ => true }

/-- A newly constructed component with the given flags after its first
updateContext on `samplePlatform`: it owns context 0 and has no size yet. -/
def sampleOwner (flags : Nat) : OpenGLComponent :=
  updateContext samplePlatform (OpenGLComponent.create flags (OpenGLPixelFormat.create 8 8 16 0))

/-- The context `sampleOwner` owns. -/
def sampleContext : OpenGLContext :=
  { handle := 0
    pixelFormat := OpenGLPixelFormat.create 8 8 16 0
    sharedWith := none
    frameBufferID := 1
    active := false }

/-- The sample component given a size. -/
def sampleOwnerSized (flags : Nat) (w h : Int) : OpenGLComponent :=
  { sampleOwner flags with width := w, height := h }

/-- The entries deleteContext adds to the log when it finds the context `c`. -/
def deletionEvents (P : Platform) (s : OpenGLComponent) (c : OpenGLContext) : List Event :=
  [Event.makeActive c.handle (P.makeActive s.tick c.handle)]
    ++ (if P.makeActive s.tick c.handle then
          [Event.hook Hook.releaseOpenGLContext (some c.handle), Event.makeInactive c.handle]
        else [])
    ++ [Event.contextDeleted c.handle, Event.setCachedComponentImageNull]

/-- The log of one operation: it extends the log by entries in which every hook
is guarded, and it ends with no context current. -/
def GuardedStep (s s' : OpenGLComponent) : Prop :=
  ∃ evs, s'.trace = s.trace ++ evs ∧ hooksGuarded none evs = true ∧ activeAfter none evs = none

/-- One operation leaves the format and share target in force and the pending
flag as they were, and either leaves no context or leaves the context it
found, up to its `active` state. -/
def Keeps (s s' : OpenGLComponent) : Prop :=
  s'.preferredPixelFormat = s.preferredPixelFormat
  ∧ s'.contextToShareListsWith = s.contextToShareListsWith
  ∧ s'.needToDeleteContext = s.needToDeleteContext
  ∧ ∀ c', s'.context = some c' →
      ∃ c, s.context = some c ∧ c'.pixelFormat = c.pixelFormat ∧ c'.sharedWith = c.sharedWith

/-- A component constructed with the sample `useBackgroundThread` flag, given
the size 100x100, shown in a window and painted once on `samplePlatform` (which
creates its context and starts its render thread), then hidden. -/
def sampleHiddenOwner : OpenGLComponent :=
  match paint samplePlatform OpenGLCachedComponentImage.create
      { OpenGLComponent.create 4 (OpenGLPixelFormat.create 8 8 16 0) with
        width := 100, height := 100, showing := true, peer := true } with
  | some r => { r.2 with showing := false }
  | none => OpenGLComponent.create 4 (OpenGLPixelFormat.create 8 8 16 0)

/-- Whether an entry is the entering of the renderOpenGL hook or a swapBuffers
call. -/
def Event.isRenderOrSwap : Event → Bool
  | Event.hook Hook.renderOpenGL _ => true
  | Event.swapBuffers _ => true
  | _ => false

/-- One operation extends the log by entries among which there is no
renderOpenGL and no swapBuffers. -/
def QuietStep (s s' : OpenGLComponent) : Prop :=
  ∃ evs, s'.trace = s.trace ++ evs ∧ evs.filter Event.isRenderOrSwap = []

/-! # Theorems -/

/-! ## deleteContext is idempotent (C2) -/

theorem deleteContext_context (P : Platform) (s : OpenGLComponent) :
    (deleteContext P s).context = none := by
  unfold deleteContext
  cases h : s.context <;> simp [h, emit]

theorem deleteContext_needToDeleteContext (P : Platform) (s : OpenGLComponent) :
    (deleteContext P s).needToDeleteContext = false := by
  simp [deleteContext]

theorem deleteContext_of_none (P : Platform) (s : OpenGLComponent) (h : s.context = none) :
    deleteContext P s = { s with needToDeleteContext := false } := by
  simp [deleteContext, h]

/-- C2: deleteContext is idempotent.  A second call in a row gives the state
the first call gave, log and oracle counter included, so it enters no hook and
makes no call on a context; with no context present a call adds nothing to the
log; after any call the context is null and needToDeleteContext is false. -/
theorem deleteContext_idempotent (P : Platform) (s : OpenGLComponent) :
    deleteContext P (deleteContext P s) = deleteContext P s
    ∧ eventsSince (deleteContext P s) (deleteContext P (deleteContext P s)) = []
    ∧ (deleteContext P s).context = none
    ∧ (deleteContext P s).needToDeleteContext = false
    ∧ eventsSince { s with context := none } (deleteContext P { s with context := none }) = []
    ∧ (deleteContext P { s with context := none }).context = none := by
  have h1 : deleteContext P (deleteContext P s) = deleteContext P s := by
    rw [deleteContext_of_none P _ (deleteContext_context P s)]
    simp [deleteContext]
  refine ⟨h1, ?_, deleteContext_context P s, deleteContext_needToDeleteContext P s, ?_,
    deleteContext_context P _⟩
  · rw [h1]; simp [eventsSince]
  · simp [eventsSince, deleteContext]

/-! ## Normal forms of renderAndSwapBuffers -/

theorem renderAndSwapBuffers_of_none (P : Platform) (s : OpenGLComponent)
    (h : (atActivation P s).context = none) :
    renderAndSwapBuffers P s = (true, atActivation P s) := by
  unfold atActivation at h
  simp only [renderAndSwapBuffers, atActivation]
  simp [h]

theorem renderAndSwapBuffers_of_fail (P : Platform) (s : OpenGLComponent) (c : OpenGLContext)
    (h : (atActivation P s).context = some c)
    (hf : P.makeActive (atActivation P s).tick c.handle = false) :
    renderAndSwapBuffers P s = (false, (contextMakeActive P (atActivation P s)).2)
    ∧ (contextMakeActive P (atActivation P s)).2.trace
        = (atActivation P s).trace ++ [Event.makeActive c.handle false] := by
  unfold atActivation at h hf
  simp only [renderAndSwapBuffers, atActivation]
  simp [h, hf, makeCurrentRenderingTarget, contextMakeActive]

theorem renderAndSwapBuffers_of_ok (P : Platform) (s : OpenGLComponent) (c : OpenGLContext)
    (h : (atActivation P s).context = some c)
    (hf : P.makeActive (atActivation P s).tick c.handle = true) :
    renderAndSwapBuffers P s
      = (true,
          { atActivation P s with
            tick := (atActivation P s).tick + 1
            context := some { c with active := true }
            needToUpdateViewport := false
            trace := (atActivation P s).trace ++ frameEvents (atActivation P s) c }) := by
  unfold atActivation at h hf
  simp only [renderAndSwapBuffers, atActivation]
  cases hv : (if P.linux = true then updateContext P s else s).needToUpdateViewport <;>
    simp [h, hf, hv, makeCurrentRenderingTarget, contextMakeActive, callHook, swapBuffers, emit,
      frameEvents]

/-! ## Normal forms of the primitive steps -/

theorem updateContextPosition_eq (s : OpenGLComponent) :
    updateContextPosition s
      = { s with needToUpdateViewport := true, trace := s.trace ++ positionEvents s } := by
  by_cases hw : 0 < s.width <;> by_cases hh : 0 < s.height <;> cases hp : s.peer <;>
    simp [updateContextPosition, positionEvents, emit, hw, hh, hp]

theorem contextMakeActive_of_some (P : Platform) (s : OpenGLComponent) (c : OpenGLContext)
    (hc : s.context = some c) :
    contextMakeActive P s = (P.makeActive s.tick c.handle,
      { s with
        tick := s.tick + 1
        context := some { c with active := P.makeActive s.tick c.handle || c.active }
        trace := s.trace ++ [Event.makeActive c.handle (P.makeActive s.tick c.handle)] }) := by
  simp [contextMakeActive, hc]

theorem contextMakeInactive_of_some (s : OpenGLComponent) (c : OpenGLContext)
    (hc : s.context = some c) :
    contextMakeInactive s
      = { s with
          context := some { c with active := false }
          trace := s.trace ++ [Event.makeInactive c.handle] } := by
  simp [contextMakeInactive, hc]

/-! ## Normal forms of updateContext -/

theorem updateContext_of_some (P : Platform) (s : OpenGLComponent) (c : OpenGLContext)
    (hc : s.context = some c) (hn : s.needToDeleteContext = false) :
    updateContext P s = s := by
  simp [updateContext, hc, hn]

theorem updateContext_of_flag (P : Platform) (s : OpenGLComponent)
    (hn : s.needToDeleteContext = true) :
    updateContext P s = updateContext P (deleteContext P s) := by
  conv_lhs => unfold updateContext
  conv_rhs => unfold updateContext
  simp [hn, deleteContext_needToDeleteContext]

theorem updateContext_of_fail (P : Platform) (s : OpenGLComponent)
    (hc : s.context = none) (hn : s.needToDeleteContext = false)
    (hm : P.createContext s.tick s.preferredPixelFormat s.contextToShareListsWith = none) :
    updateContext P s
      = { s with
          tick := s.tick + 1
          trace := s.trace
            ++ [Event.createContext s.preferredPixelFormat s.contextToShareListsWith false] } := by
  simp [updateContext, hc, hn, hm, createContext]

theorem updateContext_of_made (P : Platform) (s : OpenGLComponent) (id : Nat)
    (hc : s.context = none) (hn : s.needToDeleteContext = false)
    (hm : P.createContext s.tick s.preferredPixelFormat s.contextToShareListsWith = some id) :
    updateContext P s
      = { s with
          tick := s.tick + 2
          context := some
            { handle := s.tick
              pixelFormat := s.preferredPixelFormat
              sharedWith := s.contextToShareListsWith
              frameBufferID := id
              active := false }
          needToUpdateViewport := repositions P s || s.needToUpdateViewport
          trace := s.trace
            ++ ([Event.createContext s.preferredPixelFormat s.contextToShareListsWith true]
              ++ creationEvents P s s.tick) } := by
  unfold updateContext
  simp only [hn, Bool.false_eq_true, if_false, hc, createContext, hm, Option.map_some',
    Option.isSome_some, updateContextPosition_eq]
  cases hr : repositions P s <;> cases ha : P.makeActive (s.tick + 1) s.tick <;>
    simp [repositions, isUsingDedicatedThread] at hr <;>
    simp [creationEvents, repositions, isUsingDedicatedThread, hr, ha, contextMakeActive,
      contextMakeInactive, callHook, emit, positionEvents]

/-! ## Normal forms of timerCallback -/

theorem resizeFrameBuffer_eq (img : OpenGLCachedComponentImage) (s : OpenGLComponent) :
    resizeFrameBuffer img s
      = ({ img with frameBuffer := bufferAfter img s, validArea := validAfterResize img s },
         { s with trace := s.trace
            ++ (if reallocates img s then [Event.frameBufferInitialise s.width s.height]
                else []) }) := by
  by_cases h : (img.frameBuffer.width < s.width ∨ img.frameBuffer.height < s.height
    ∨ img.frameBuffer.width > wrapInt (s.width + 128)
    ∨ img.frameBuffer.height > wrapInt (s.height + 128)
    ∨ img.frameBuffer.valid = false)
  · have hr : reallocates img s = true := by simpa [reallocates] using h
    simp only [resizeFrameBuffer, if_pos h, bufferAfter, validAfterResize, hr, emit, if_true]
  · have hr : reallocates img s = false := by simpa [reallocates] using h
    simp only [resizeFrameBuffer, if_neg h, bufferAfter, validAfterResize, hr, emit,
      Bool.false_eq_true, if_false, List.append_nil]

theorem compositeSubComponents_eq (P : Platform) (img : OpenGLCachedComponentImage)
    (s : OpenGLComponent) (c : OpenGLContext) (hc : s.context = some c) :
    compositeSubComponents P img s
      = ({ img with validArea := RectangleList.ofRectangle 0 0 s.width s.height },
         { s with
           tick := s.tick + 1
           context := some { c with active := P.makeActive s.tick c.handle || c.active }
           trace := s.trace
            ++ (if RectangleList.ofRectangle 0 0 s.width s.height \ img.validArea ≠ ∅ then
                  [Event.clipToRectangleList
                      (RectangleList.ofRectangle 0 0 s.width s.height \ img.validArea),
                    Event.fillRect s.width s.height,
                    Event.paintOwner
                      (RectangleList.ofRectangle 0 0 s.width s.height \ img.validArea)]
                else [])
            ++ [Event.makeActive c.handle (P.makeActive s.tick c.handle),
                Event.prepareFor2D s.width s.height, Event.glBlendFunc, Event.glEnable,
                Event.glColor4f,
                Event.drawAt 0 (wrapInt (s.height - img.frameBuffer.height))] }) := by
  by_cases hi : RectangleList.ofRectangle 0 0 s.width s.height \ img.validArea = ∅
  · simp only [compositeSubComponents, hi, ne_eq, not_true_eq_false, if_false,
      makeCurrentRenderingTarget, hc, contextMakeActive, emit, List.append_nil, List.append_assoc,
      List.cons_append, List.nil_append]
  · simp only [compositeSubComponents, hi, ne_eq, not_false_eq_true, if_true,
      makeCurrentRenderingTarget, hc, contextMakeActive, emit, paintOwner, List.append_assoc,
      List.cons_append, List.nil_append]

theorem timerCallback_of_none (P : Platform) (img : OpenGLCachedComponentImage)
    (s : OpenGLComponent) (hc : s.context = none) :
    timerCallback P img s = ({ img with timerInterval := none }, s) := by
  simp [timerCallback, makeCurrentRenderingTarget, hc]

theorem timerCallback_of_fail (P : Platform) (img : OpenGLCachedComponentImage)
    (s : OpenGLComponent) (c : OpenGLContext) (hc : s.context = some c)
    (ha : P.makeActive s.tick c.handle = false) :
    timerCallback P img s = ({ img with timerInterval := none },
      { s with
        tick := s.tick + 1
        context := some c
        trace := s.trace ++ [Event.makeActive c.handle false] }) := by
  simp [timerCallback, makeCurrentRenderingTarget, contextMakeActive, hc, ha]

theorem timerCallback_of_ok (P : Platform) (img : OpenGLCachedComponentImage)
    (s : OpenGLComponent) (c : OpenGLContext) (hc : s.context = some c)
    (ha : P.makeActive s.tick c.handle = true) :
    timerCallback P img s
      = ({ frameBuffer := bufferAfter img s
           validArea :=
             if composites P s then RectangleList.ofRectangle 0 0 s.width s.height
             else validAfterResize img s
           timerInterval := none },
         { s with
           tick := if composites P s then s.tick + 2 else s.tick + 1
           context := some { c with active := false }
           trace := s.trace ++ passEvents P img s c }) := by
  unfold timerCallback
  simp only [makeCurrentRenderingTarget, hc, contextMakeActive_of_some P s c hc, ha,
    Bool.not_true, Bool.false_eq_true, if_false, resizeFrameBuffer_eq, callHook, emit]
  cases hk : composites P s
  · have hk' : (s.flags &&& P.allowSubComponents != 0) = false := hk
    simp only [hk', Bool.false_eq_true, if_false, swapBuffers, releaseAsRenderingTarget,
      contextMakeInactive, emit, passEvents, compositeEvents, hk, Option.map_some',
      Bool.true_or, List.append_assoc, List.cons_append, List.nil_append, List.append_nil]
    rfl
  · have hk' : (s.flags &&& P.allowSubComponents != 0) = true := hk
    simp only [hk', if_true]
    rw [compositeSubComponents_eq P _ _ { c with active := true || c.active } rfl]
    simp only [swapBuffers, releaseAsRenderingTarget,
      contextMakeInactive, emit, passEvents, compositeEvents, hk, Option.map_some',
      Bool.true_or, List.append_assoc, List.cons_append, List.nil_append, List.append_nil,
      if_true, invalidRegion]
    rfl

theorem eventsSince_of_append (s s' : OpenGLComponent) (evs : List Event)
    (h : s'.trace = s.trace ++ evs) : eventsSince s s' = evs := by
  simp [eventsSince, h]

theorem wrapInt_of_fits (w : Int) (h : slackFits w) : wrapInt (w + 128) = w + 128 := by
  unfold slackFits at h
  unfold wrapInt
  omega

theorem reallocates_of_overflow (img : OpenGLCachedComponentImage) (s : OpenGLComponent)
    (h1 : 2147483647 - 128 < s.width) (h2 : s.width ≤ 2147483647) :
    reallocates img s = true := by
  simp only [reallocates, decide_eq_true_eq]
  by_cases hlt : img.frameBuffer.width < s.width
  · left; exact hlt
  · right; right; left
    unfold wrapInt
    omega

theorem reallocates_iff (img : OpenGLCachedComponentImage) (s : OpenGLComponent)
    (hw : slackFits s.width) (hh : slackFits s.height) :
    reallocates img s = true
      ↔ (¬ withinSlack img.frameBuffer s.width s.height ∨ img.frameBuffer.valid = false) := by
  simp only [reallocates, withinSlack, decide_eq_true_eq, wrapInt_of_fits _ hw,
    wrapInt_of_fits _ hh]
  constructor
  · rintro (h | h | h | h | h)
    · left; intro hw; omega
    · left; intro hw; omega
    · left; intro hw; omega
    · left; intro hw; omega
    · right; exact h
  · rintro (h | h)
    · by_contra hn
      push_neg at hn
      exact h ⟨⟨hn.1, by omega⟩, ⟨hn.2.1, by omega⟩⟩
    · right; right; right; right; exact h

theorem bufferAfter_withinSlack (img : OpenGLCachedComponentImage) (s : OpenGLComponent)
    (hw : slackFits s.width) (hh : slackFits s.height) :
    withinSlack (bufferAfter img s) s.width s.height ∧ (bufferAfter img s).valid = true := by
  cases hr : reallocates img s
  · have h := (reallocates_iff img s hw hh).not.mp (by simp [hr])
    push_neg at h
    simp only [bufferAfter, hr, Bool.false_eq_true, if_false]
    exact ⟨h.1, by simpa using h.2⟩
  · simp [bufferAfter, hr, OpenGLFrameBuffer.initialise, withinSlack]

theorem mem_passEvents_frameBufferInitialise (P : Platform) (img : OpenGLCachedComponentImage)
    (s : OpenGLComponent) (c : OpenGLContext) (w h : Int) :
    Event.frameBufferInitialise w h ∈ passEvents P img s c
      ↔ (reallocates img s = true ∧ w = s.width ∧ h = s.height) := by
  cases hr : reallocates img s <;> cases hk : composites P s <;>
    by_cases hi : invalidRegion img s = ∅ <;>
    simp [passEvents, compositeEvents, hr, hk, hi]

/-! ## The sample inputs -/

theorem sampleOwner_eq (flags : Nat) :
    sampleOwner flags
      = { OpenGLComponent.create flags (OpenGLPixelFormat.create 8 8 16 0) with
          tick := 2
          context := some sampleContext
          trace := [Event.createContext (OpenGLPixelFormat.create 8 8 16 0) none true,
            Event.makeActive 0 true, Event.hook Hook.newOpenGLContextCreated (some 0),
            Event.makeInactive 0] } := by
  unfold sampleOwner
  rw [updateContext_of_made samplePlatform _ 1 rfl rfl rfl]
  simp [OpenGLComponent.create, creationEvents, repositions, samplePlatform, positionEvents,
    sampleContext]

theorem sampleOwner_context (flags : Nat) : (sampleOwner flags).context = some sampleContext := by
  rw [sampleOwner_eq]

theorem sampleOwner_needToDeleteContext (flags : Nat) :
    (sampleOwner flags).needToDeleteContext = false := by
  rw [sampleOwner_eq]
  rfl

theorem sampleOwner_width_fits (flags : Nat) : slackFits (sampleOwner flags).width := by
  rw [sampleOwner_eq]
  simp [OpenGLComponent.create, slackFits]

theorem sampleOwner_height_fits (flags : Nat) : slackFits (sampleOwner flags).height := by
  rw [sampleOwner_eq]
  simp [OpenGLComponent.create, slackFits]

theorem sampleOwnerSized_context (flags : Nat) (w h : Int) :
    (sampleOwnerSized flags w h).context = some sampleContext := by
  simp [sampleOwnerSized, sampleOwner_context]

/-! ## The frame buffer's size (C5, C6) -/

/-- C5, as amended: for bounds whose width and height are at most
INT_MAX - 128 (so that the slack can be added in an int), after a
timerCallback pass whose activation succeeds, the frame buffer is valid and
its size satisfies bounds ≤ size ≤ bounds + 128 in each axis; the pass calls
frameBuffer.initialise, with the size of the bounds and clearing the valid
region, exactly when the size before the pass violated that inequality or the
buffer was not valid, and otherwise leaves the buffer as it was. -/
theorem timerCallback_frameBuffer_withinSlack (P : Platform) (img : OpenGLCachedComponentImage)
    (s : OpenGLComponent) (c : OpenGLContext) (hc : s.context = some c)
    (ha : P.makeActive s.tick c.handle = true)
    (hw : slackFits s.width) (hh : slackFits s.height) :
    withinSlack (timerCallback P img s).1.frameBuffer s.width s.height
    ∧ (timerCallback P img s).1.frameBuffer.valid = true
    ∧ ((∃ w h, Event.frameBufferInitialise w h ∈ eventsSince s (timerCallback P img s).2)
        ↔ (¬ withinSlack img.frameBuffer s.width s.height ∨ img.frameBuffer.valid = false))
    ∧ ((¬ withinSlack img.frameBuffer s.width s.height ∨ img.frameBuffer.valid = false) →
        Event.frameBufferInitialise s.width s.height ∈ eventsSince s (timerCallback P img s).2
        ∧ (timerCallback P img s).1.frameBuffer = OpenGLFrameBuffer.initialise s.width s.height
        ∧ (timerCallback P img s).1.validArea
            = if composites P s then RectangleList.ofRectangle 0 0 s.width s.height else ∅)
    ∧ (¬ (¬ withinSlack img.frameBuffer s.width s.height ∨ img.frameBuffer.valid = false) →
        (timerCallback P img s).1.frameBuffer = img.frameBuffer) := by
  have hev : eventsSince s (timerCallback P img s).2 = passEvents P img s c :=
    eventsSince_of_append _ _ _ (by rw [timerCallback_of_ok P img s c hc ha])
  rw [hev, timerCallback_of_ok P img s c hc ha, ← reallocates_iff img s hw hh]
  refine ⟨(bufferAfter_withinSlack img s hw hh).1, (bufferAfter_withinSlack img s hw hh).2,
    ?_, ?_, ?_⟩
  · constructor
    · rintro ⟨w, h, hm⟩
      exact ((mem_passEvents_frameBufferInitialise P img s c w h).mp hm).1
    · intro hr
      exact ⟨s.width, s.height,
        (mem_passEvents_frameBufferInitialise P img s c _ _).mpr ⟨hr, rfl, rfl⟩⟩
  · intro hr
    refine ⟨(mem_passEvents_frameBufferInitialise P img s c _ _).mpr ⟨hr, rfl, rfl⟩, ?_, ?_⟩
    · simp [bufferAfter, hr]
    · simp [validAfterResize, hr]
  · intro hr
    simp [bufferAfter, hr]

/-- The witness for C5 as amended: a new component's first pass. -/
theorem timerCallback_frameBuffer_withinSlack_witness :
    (sampleOwner 0).context = some sampleContext
    ∧ samplePlatform.makeActive (sampleOwner 0).tick sampleContext.handle = true
    ∧ slackFits (sampleOwner 0).width
    ∧ slackFits (sampleOwner 0).height
    ∧ withinSlack
        (timerCallback samplePlatform OpenGLCachedComponentImage.create (sampleOwner 0)).1.frameBuffer
        (sampleOwner 0).width (sampleOwner 0).height
    ∧ (timerCallback samplePlatform OpenGLCachedComponentImage.create
        (sampleOwner 0)).1.frameBuffer.valid = true :=
  ⟨sampleOwner_context 0, rfl, sampleOwner_width_fits 0, sampleOwner_height_fits 0,
    (timerCallback_frameBuffer_withinSlack samplePlatform OpenGLCachedComponentImage.create
      (sampleOwner 0) sampleContext (sampleOwner_context 0) rfl
      (sampleOwner_width_fits 0) (sampleOwner_height_fits 0)).1,
    (timerCallback_frameBuffer_withinSlack samplePlatform OpenGLCachedComponentImage.create
      (sampleOwner 0) sampleContext (sampleOwner_context 0) rfl
      (sampleOwner_width_fits 0) (sampleOwner_height_fits 0)).2.1⟩

/-- C5 as stated fails: the buffer of a new component is not valid and has size
0x0, the component has bounds 0x0, so the inequality holds before the first
pass (0 ≤ 0 ≤ 128); the pass reallocates the buffer all the same.  It also
fails where `bounds.getWidth() + 128` overflows an int: with bounds
2147483600x1 and a valid buffer of exactly that size, the inequality holds and
the pass reallocates the buffer. -/
theorem timerCallback_reallocates_within_slack :
    (withinSlack OpenGLCachedComponentImage.create.frameBuffer
        (sampleOwner 0).width (sampleOwner 0).height
      ∧ Event.frameBufferInitialise 0 0 ∈ eventsSince (sampleOwner 0)
        (timerCallback samplePlatform OpenGLCachedComponentImage.create (sampleOwner 0)).2)
    ∧ (withinSlack (OpenGLFrameBuffer.initialise 2147483600 1)
        (sampleOwnerSized 0 2147483600 1).width (sampleOwnerSized 0 2147483600 1).height
      ∧ (OpenGLFrameBuffer.initialise 2147483600 1).valid = true
      ∧ Event.frameBufferInitialise 2147483600 1 ∈ eventsSince (sampleOwnerSized 0 2147483600 1)
        (timerCallback samplePlatform
          { frameBuffer := OpenGLFrameBuffer.initialise 2147483600 1, validArea := ∅,
            timerInterval := none }
          (sampleOwnerSized 0 2147483600 1)).2) := by
  constructor
  · have hev := eventsSince_of_append _ _ _
      (congrArg (fun r => r.2.trace) (timerCallback_of_ok samplePlatform
        OpenGLCachedComponentImage.create (sampleOwner 0) _ (sampleOwner_context 0) rfl))
    rw [hev, mem_passEvents_frameBufferInitialise]
    simp [sampleOwner_eq, withinSlack, OpenGLCachedComponentImage.create,
      OpenGLFrameBuffer.release, OpenGLComponent.create, reallocates]
  · have hev := eventsSince_of_append _ _ _
      (congrArg (fun r => r.2.trace) (timerCallback_of_ok samplePlatform
        { frameBuffer := OpenGLFrameBuffer.initialise 2147483600 1, validArea := ∅,
          timerInterval := none }
        (sampleOwnerSized 0 2147483600 1) _ (sampleOwnerSized_context 0 2147483600 1) rfl))
    rw [hev, mem_passEvents_frameBufferInitialise]
    refine ⟨?_, rfl, ?_, rfl, rfl⟩
    · simp [withinSlack, OpenGLFrameBuffer.initialise, sampleOwnerSized]
    · exact reallocates_of_overflow _ _ (by simp [sampleOwnerSized]) (by simp [sampleOwnerSized])

/-- C6 as stated fails: with a valid 100x100 buffer, a pass with bounds 150x150
reallocates the buffer at 150x150 and leaves the valid region empty. -/
theorem timerCallback_reallocates_100_to_150 :
    Event.frameBufferInitialise 150 150 ∈ eventsSince (sampleOwnerSized 0 150 150)
        (timerCallback samplePlatform
          { frameBuffer := OpenGLFrameBuffer.initialise 100 100
            validArea := RectangleList.ofRectangle 0 0 100 100
            timerInterval := none }
          (sampleOwnerSized 0 150 150)).2
    ∧ (timerCallback samplePlatform
          { frameBuffer := OpenGLFrameBuffer.initialise 100 100
            validArea := RectangleList.ofRectangle 0 0 100 100
            timerInterval := none }
          (sampleOwnerSized 0 150 150)).1
        = { frameBuffer := OpenGLFrameBuffer.initialise 150 150
            validArea := ∅
            timerInterval := none } := by
  have hok := timerCallback_of_ok samplePlatform
    { frameBuffer := OpenGLFrameBuffer.initialise 100 100
      validArea := RectangleList.ofRectangle 0 0 100 100
      timerInterval := none } (sampleOwnerSized 0 150 150) _
    (sampleOwnerSized_context 0 150 150) rfl
  have hr : reallocates
      { frameBuffer := OpenGLFrameBuffer.initialise 100 100
        validArea := RectangleList.ofRectangle 0 0 100 100
        timerInterval := none } (sampleOwnerSized 0 150 150) = true := by
    simp [reallocates, OpenGLFrameBuffer.initialise, sampleOwnerSized]
  have hk : composites samplePlatform (sampleOwnerSized 0 150 150) = false := by
    simp [composites, sampleOwnerSized, sampleOwner_eq, OpenGLComponent.create]
  constructor
  · rw [eventsSince_of_append _ _ _ (congrArg (fun r => r.2.trace) hok),
      mem_passEvents_frameBufferInitialise]
    exact ⟨hr, rfl, rfl⟩
  · rw [hok]
    simp only [bufferAfter, validAfterResize, hr, hk, if_true, Bool.false_eq_true, if_false]
    rfl

/-- C6, as amended: with a valid 100x100 buffer and activation succeeding, a
pass with bounds 150x150 and a pass with bounds 260x260 both reallocate the
buffer at the size of the bounds and reset the valid region to empty before
compositing (so with sub-component compositing the whole bounds are
rasterized, and without it the valid region is empty after the pass).  The
slack is on the other side: with a valid buffer of 150x150 and bounds 100x100
the pass does not reallocate and leaves the buffer and, before compositing,
the valid region as they were. -/
theorem timerCallback_resize_scenarios (P : Platform) (valid : RectangleList)
    (s : OpenGLComponent) (c : OpenGLContext) (n : Int) (hn : n = 150 ∨ n = 260)
    (hc : s.context = some c) (ha : P.makeActive s.tick c.handle = true) :
    (Event.frameBufferInitialise n n ∈ eventsSince { s with width := n, height := n }
        (timerCallback P
          { frameBuffer := OpenGLFrameBuffer.initialise 100 100, validArea := valid,
            timerInterval := none }
          { s with width := n, height := n }).2
      ∧ (timerCallback P
          { frameBuffer := OpenGLFrameBuffer.initialise 100 100, validArea := valid,
            timerInterval := none }
          { s with width := n, height := n }).1.frameBuffer = OpenGLFrameBuffer.initialise n n
      ∧ (composites P s = false →
          (timerCallback P
            { frameBuffer := OpenGLFrameBuffer.initialise 100 100, validArea := valid,
              timerInterval := none }
            { s with width := n, height := n }).1.validArea = ∅)
      ∧ (composites P s = true →
          Event.paintOwner (RectangleList.ofRectangle 0 0 n n) ∈
            eventsSince { s with width := n, height := n }
              (timerCallback P
                { frameBuffer := OpenGLFrameBuffer.initialise 100 100, validArea := valid,
                  timerInterval := none }
                { s with width := n, height := n }).2))
    ∧ ((∀ w h, Event.frameBufferInitialise w h ∉ eventsSince { s with width := 100, height := 100 }
          (timerCallback P
            { frameBuffer := OpenGLFrameBuffer.initialise 150 150, validArea := valid,
              timerInterval := none }
            { s with width := 100, height := 100 }).2)
      ∧ (timerCallback P
            { frameBuffer := OpenGLFrameBuffer.initialise 150 150, validArea := valid,
              timerInterval := none }
            { s with width := 100, height := 100 }).1.frameBuffer
          = OpenGLFrameBuffer.initialise 150 150
      ∧ (composites P s = false →
          (timerCallback P
            { frameBuffer := OpenGLFrameBuffer.initialise 150 150, validArea := valid,
              timerInterval := none }
            { s with width := 100, height := 100 }).1.validArea = valid)) := by
  have hok := fun (fb : OpenGLFrameBuffer) (m : Int) => timerCallback_of_ok P
    { frameBuffer := fb, validArea := valid, timerInterval := none }
    { s with width := m, height := m } c hc ha
  have hev := fun (fb : OpenGLFrameBuffer) (m : Int) => eventsSince_of_append _ _ _
    (congrArg (fun r => r.2.trace) (hok fb m))
  have hr : reallocates
      { frameBuffer := OpenGLFrameBuffer.initialise 100 100, validArea := valid,
        timerInterval := none } { s with width := n, height := n } = true := by
    rcases hn with rfl | rfl <;> simp [reallocates, OpenGLFrameBuffer.initialise, wrapInt]
  have hr2 : reallocates
      { frameBuffer := OpenGLFrameBuffer.initialise 150 150, validArea := valid,
        timerInterval := none } { s with width := 100, height := 100 } = false := by
    simp [reallocates, OpenGLFrameBuffer.initialise, wrapInt]
  have hpos : (0 : Int) < n := by rcases hn with rfl | rfl <;> norm_num
  have hne : RectangleList.ofRectangle 0 0 n n ≠ ∅ := by
    intro h
    have hm : ((0 : Int), (0 : Int)) ∈ RectangleList.ofRectangle 0 0 n n := by
      simp [RectangleList.ofRectangle, hpos]
    rw [h] at hm
    exact absurd hm (Finset.not_mem_empty _)
  rw [hev, hev, hok, hok]
  refine ⟨⟨?_, ?_, ?_, ?_⟩, ?_, ?_, ?_⟩
  · exact (mem_passEvents_frameBufferInitialise _ _ _ _ _ _).mpr ⟨hr, rfl, rfl⟩
  · simp [bufferAfter, hr]
  · intro hk
    have hk' : composites P { s with width := n, height := n } = false := hk
    simp [validAfterResize, hr, hk']
  · intro hk
    have hk' : composites P { s with width := n, height := n } = true := hk
    simp [passEvents, compositeEvents, hk', invalidRegion, validAfterResize, hr, hne]
  · intro w h hm
    have := ((mem_passEvents_frameBufferInitialise _ _ _ _ _ _).mp hm).1
    rw [hr2] at this
    exact absurd this (by decide)
  · simp [bufferAfter, hr2]
  · intro hk
    have hk' : composites P { s with width := 100, height := 100 } = false := hk
    simp [validAfterResize, hr2, hk']

/-- The witness for C6 as amended: the sample component resized to 150x150. -/
theorem timerCallback_resize_scenarios_witness :
    ((150 : Int) = 150 ∨ (150 : Int) = 260)
    ∧ (sampleOwner 0).context = some sampleContext
    ∧ samplePlatform.makeActive (sampleOwner 0).tick sampleContext.handle = true
    ∧ (timerCallback samplePlatform
          { frameBuffer := OpenGLFrameBuffer.initialise 100 100,
            validArea := RectangleList.ofRectangle 0 0 100 100, timerInterval := none }
          { sampleOwner 0 with width := 150, height := 150 }).1.frameBuffer
        = OpenGLFrameBuffer.initialise 150 150 :=
  ⟨Or.inl rfl, sampleOwner_context 0, rfl,
    (timerCallback_resize_scenarios samplePlatform (RectangleList.ofRectangle 0 0 100 100)
      (sampleOwner 0) sampleContext 150 (Or.inl rfl) (sampleOwner_context 0) rfl).1.2.1⟩

/-! ## Rasterization after invalidateAll (C7) -/

theorem filter_isPaintOwner_passEvents (P : Platform) (img : OpenGLCachedComponentImage)
    (s : OpenGLComponent) (c : OpenGLContext) :
    (passEvents P img s c).filter Event.isPaintOwner
      = if composites P s = true ∧ invalidRegion img s ≠ ∅ then
          [Event.paintOwner (invalidRegion img s)]
        else [] := by
  cases hr : reallocates img s <;> cases hk : composites P s <;>
    by_cases hi : invalidRegion img s = ∅ <;>
    simp [passEvents, compositeEvents, hr, hk, hi, Event.isPaintOwner]

theorem ofRectangle_ne_empty (w h : Int) (hw : 0 < w) (hh : 0 < h) :
    RectangleList.ofRectangle 0 0 w h ≠ ∅ := by
  intro he
  have hm : ((0 : Int), (0 : Int)) ∈ RectangleList.ofRectangle 0 0 w h := by
    simp [RectangleList.ofRectangle, hw, hh]
  rw [he] at hm
  exact absurd hm (Finset.not_mem_empty _)

theorem timerCallback_rasterizes_of_overflow (P : Platform) (img : OpenGLCachedComponentImage)
    (s : OpenGLComponent) (c : OpenGLContext) (hk : composites P s = true)
    (hc : s.context = some c) (ha : P.makeActive s.tick c.handle = true)
    (h1 : 2147483647 - 128 < s.width) (h2 : s.width ≤ 2147483647) (hh : 0 < s.height) :
    (eventsSince s (timerCallback P img s).2).filter Event.isPaintOwner
      = [Event.paintOwner (RectangleList.ofRectangle 0 0 s.width s.height)] := by
  rw [eventsSince_of_append _ _ _
    (congrArg (fun r => r.2.trace) (timerCallback_of_ok P img s c hc ha)),
    filter_isPaintOwner_passEvents]
  have hr := reallocates_of_overflow img s h1 h2
  have hne := ofRectangle_ne_empty s.width s.height (by omega) hh
  simp [invalidRegion, validAfterResize, hr, hk, hne]

theorem filter_isPaintOwner_timerCallback_of_valid (P : Platform)
    (img : OpenGLCachedComponentImage) (s : OpenGLComponent)
    (hw : slackFits s.width) (hh : slackFits s.height)
    (hs : withinSlack img.frameBuffer s.width s.height) (hv : img.frameBuffer.valid = true)
    (ha : img.validArea = RectangleList.ofRectangle 0 0 s.width s.height) :
    (eventsSince s (timerCallback P img s).2).filter Event.isPaintOwner = [] := by
  cases hc : s.context with
  | none => simp [timerCallback_of_none P img s hc, eventsSince]
  | some c =>
    cases hm : P.makeActive s.tick c.handle with
    | false =>
      rw [eventsSince_of_append _ _ _
        (congrArg (fun r => r.2.trace) (timerCallback_of_fail P img s c hc hm))]
      simp [Event.isPaintOwner]
    | true =>
      rw [eventsSince_of_append _ _ _
        (congrArg (fun r => r.2.trace) (timerCallback_of_ok P img s c hc hm)),
        filter_isPaintOwner_passEvents]
      have hr : reallocates img s = false := by
        have := (reallocates_iff img s hw hh).not.mpr (by simp [hs, hv])
        simpa using this
      simp [invalidRegion, validAfterResize, hr, ha]

/-- C7, as amended: with sub-component compositing enabled, activation
succeeding and bounds of positive width and height, each at most
INT_MAX - 128, the timerCallback pass that follows invalidateAll rasterizes
the child widget tree exactly once, with the whole bounds as clip region, and
leaves the valid region equal to the bounds; a further pass with no
invalidation in between rasterizes nothing. -/
theorem timerCallback_after_invalidateAll (P : Platform) (img : OpenGLCachedComponentImage)
    (s : OpenGLComponent) (c : OpenGLContext) (hk : composites P s = true)
    (hc : s.context = some c) (ha : P.makeActive s.tick c.handle = true)
    (hw : 0 < s.width) (hh : 0 < s.height)
    (hwm : s.width ≤ 2147483647 - 128) (hhm : s.height ≤ 2147483647 - 128) :
    (eventsSince s (timerCallback P (invalidateAll P s img) s).2).filter Event.isPaintOwner
        = [Event.paintOwner (RectangleList.ofRectangle 0 0 s.width s.height)]
    ∧ (timerCallback P (invalidateAll P s img) s).1.validArea
        = RectangleList.ofRectangle 0 0 s.width s.height
    ∧ (eventsSince (timerCallback P (invalidateAll P s img) s).2
          (timerCallback P (timerCallback P (invalidateAll P s img) s).1
            (timerCallback P (invalidateAll P s img) s).2).2).filter Event.isPaintOwner = [] := by
  have hval : (invalidateAll P s img).validArea = ∅ := by
    unfold invalidateAll triggerRepaint
    split <;> rfl
  have hinv : invalidRegion (invalidateAll P s img) s
      = RectangleList.ofRectangle 0 0 s.width s.height := by
    unfold invalidRegion validAfterResize
    split <;> simp [hval]
  have hok := timerCallback_of_ok P (invalidateAll P s img) s c hc ha
  refine ⟨?_, ?_, ?_⟩
  · rw [eventsSince_of_append _ _ _ (congrArg (fun r => r.2.trace) hok),
      filter_isPaintOwner_passEvents, hinv]
    simp [hk, ofRectangle_ne_empty s.width s.height hw hh]
  · rw [hok]; simp [hk]
  · have fw : slackFits s.width := ⟨by omega, hwm⟩
    have fh : slackFits s.height := ⟨by omega, hhm⟩
    apply filter_isPaintOwner_timerCallback_of_valid
    · rw [hok]; exact fw
    · rw [hok]; exact fh
    · rw [hok]; exact (bufferAfter_withinSlack _ s fw fh).1
    · rw [hok]; exact (bufferAfter_withinSlack _ s fw fh).2
    · rw [hok]; simp [hk]

/-- The witness for C7 as amended: the sample component, compositing enabled,
with bounds 2x3. -/
theorem timerCallback_after_invalidateAll_witness :
    composites samplePlatform (sampleOwnerSized 8 2 3) = true
    ∧ (sampleOwnerSized 8 2 3).context = some sampleContext
    ∧ samplePlatform.makeActive (sampleOwnerSized 8 2 3).tick sampleContext.handle = true
    ∧ 0 < (sampleOwnerSized 8 2 3).width ∧ 0 < (sampleOwnerSized 8 2 3).height
    ∧ (sampleOwnerSized 8 2 3).width ≤ 2147483647 - 128
    ∧ (sampleOwnerSized 8 2 3).height ≤ 2147483647 - 128
    ∧ (timerCallback samplePlatform
          (invalidateAll samplePlatform (sampleOwnerSized 8 2 3) OpenGLCachedComponentImage.create)
          (sampleOwnerSized 8 2 3)).1.validArea
        = RectangleList.ofRectangle 0 0 (sampleOwnerSized 8 2 3).width
            (sampleOwnerSized 8 2 3).height :=
  have hk : composites samplePlatform (sampleOwnerSized 8 2 3) = true := by
    simp [composites, sampleOwnerSized, sampleOwner_eq, OpenGLComponent.create, samplePlatform]
  have hw : 0 < (sampleOwnerSized 8 2 3).width := by simp [sampleOwnerSized]
  have hh : 0 < (sampleOwnerSized 8 2 3).height := by simp [sampleOwnerSized]
  have hwm : (sampleOwnerSized 8 2 3).width ≤ 2147483647 - 128 := by simp [sampleOwnerSized]
  have hhm : (sampleOwnerSized 8 2 3).height ≤ 2147483647 - 128 := by simp [sampleOwnerSized]
  ⟨hk, sampleOwnerSized_context 8 2 3, rfl, hw, hh, hwm, hhm,
    (timerCallback_after_invalidateAll samplePlatform OpenGLCachedComponentImage.create
      (sampleOwnerSized 8 2 3) sampleContext hk (sampleOwnerSized_context 8 2 3) rfl hw hh
      hwm hhm).2.1⟩

/-- C7 as stated fails for bounds with no area: a new component, compositing
enabled, has bounds 0x0; the pass that follows invalidateAll finds nothing
invalid and does not rasterize the child widget tree at all.  It also fails
where `bounds.getWidth() + 128` overflows an int: with bounds 2147483600x1 the
pass after the first one reallocates the buffer, which clears the valid
region, and rasterizes the whole bounds again. -/
theorem timerCallback_after_invalidateAll_empty_bounds :
    (composites samplePlatform (sampleOwner 8) = true
      ∧ (sampleOwner 8).context = some sampleContext
      ∧ samplePlatform.makeActive (sampleOwner 8).tick sampleContext.handle = true
      ∧ (eventsSince (sampleOwner 8)
          (timerCallback samplePlatform
            (invalidateAll samplePlatform (sampleOwner 8) OpenGLCachedComponentImage.create)
            (sampleOwner 8)).2).filter Event.isPaintOwner = [])
    ∧ (eventsSince
          (timerCallback samplePlatform
            (invalidateAll samplePlatform (sampleOwnerSized 8 2147483600 1)
              OpenGLCachedComponentImage.create)
            (sampleOwnerSized 8 2147483600 1)).2
          (timerCallback samplePlatform
            (timerCallback samplePlatform
              (invalidateAll samplePlatform (sampleOwnerSized 8 2147483600 1)
                OpenGLCachedComponentImage.create)
              (sampleOwnerSized 8 2147483600 1)).1
            (timerCallback samplePlatform
              (invalidateAll samplePlatform (sampleOwnerSized 8 2147483600 1)
                OpenGLCachedComponentImage.create)
              (sampleOwnerSized 8 2147483600 1)).2).2).filter Event.isPaintOwner
        = [Event.paintOwner (RectangleList.ofRectangle 0 0 2147483600 1)] := by
  constructor
  · have hk : composites samplePlatform (sampleOwner 8) = true := by
      simp [composites, sampleOwner_eq, OpenGLComponent.create, samplePlatform]
    refine ⟨hk, sampleOwner_context 8, rfl, ?_⟩
    rw [eventsSince_of_append _ _ _ (congrArg (fun r => r.2.trace)
      (timerCallback_of_ok samplePlatform _ (sampleOwner 8) _ (sampleOwner_context 8) rfl)),
      filter_isPaintOwner_passEvents]
    have he : invalidRegion
        (invalidateAll samplePlatform (sampleOwner 8) OpenGLCachedComponentImage.create)
        (sampleOwner 8) = ∅ := by
      simp [invalidRegion, sampleOwner_eq, OpenGLComponent.create, RectangleList.ofRectangle]
    simp [he]
  · have hk : composites samplePlatform (sampleOwnerSized 8 2147483600 1) = true := by
      simp [composites, sampleOwnerSized, sampleOwner_eq, OpenGLComponent.create,
        samplePlatform]
    have hok := timerCallback_of_ok samplePlatform
      (invalidateAll samplePlatform (sampleOwnerSized 8 2147483600 1)
        OpenGLCachedComponentImage.create)
      (sampleOwnerSized 8 2147483600 1) _ (sampleOwnerSized_context 8 2147483600 1) rfl
    have key := timerCallback_rasterizes_of_overflow samplePlatform
      (timerCallback samplePlatform
        (invalidateAll samplePlatform (sampleOwnerSized 8 2147483600 1)
          OpenGLCachedComponentImage.create)
        (sampleOwnerSized 8 2147483600 1)).1
      (timerCallback samplePlatform
        (invalidateAll samplePlatform (sampleOwnerSized 8 2147483600 1)
          OpenGLCachedComponentImage.create)
        (sampleOwnerSized 8 2147483600 1)).2
      { sampleContext with active := false }
      (by rw [hok]; exact hk) (by rw [hok]) rfl
      (by rw [hok]; simp [sampleOwnerSized]) (by rw [hok]; simp [sampleOwnerSized])
      (by rw [hok]; simp [sampleOwnerSized])
    have hwd : (timerCallback samplePlatform
        (invalidateAll samplePlatform (sampleOwnerSized 8 2147483600 1)
          OpenGLCachedComponentImage.create)
        (sampleOwnerSized 8 2147483600 1)).2.width = 2147483600 := by rw [hok]; rfl
    have hht : (timerCallback samplePlatform
        (invalidateAll samplePlatform (sampleOwnerSized 8 2147483600 1)
          OpenGLCachedComponentImage.create)
        (sampleOwnerSized 8 2147483600 1)).2.height = 1 := by rw [hok]; rfl
    rw [hwd, hht] at key
    exact key

/-! ## Hooks run with the context active (C4) -/

theorem hooksGuarded_append (cur : Option Nat) (a b : List Event) :
    hooksGuarded cur (a ++ b) = (hooksGuarded cur a && hooksGuarded (activeAfter cur a) b) := by
  induction a generalizing cur with
  | nil => simp [hooksGuarded, activeAfter]
  | cons e es ih =>
    show (hookAllowed cur e && hooksGuarded (activeStep cur e) (es ++ b))
      = ((hookAllowed cur e && hooksGuarded (activeStep cur e) es)
          && hooksGuarded (activeAfter (activeStep cur e) es) b)
    rw [ih, Bool.and_assoc]

theorem activeAfter_append (cur : Option Nat) (a b : List Event) :
    activeAfter cur (a ++ b) = activeAfter (activeAfter cur a) b := by
  simp [activeAfter, List.foldl_append]

theorem deleteContext_of_some (P : Platform) (s : OpenGLComponent) (c : OpenGLContext)
    (hc : s.context = some c) :
    deleteContext P s
      = { s with
          tick := s.tick + 1
          context := none
          cachedImageInstalled := false
          needToDeleteContext := false
          trace := s.trace ++ deletionEvents P s c } := by
  unfold deleteContext
  simp only [hc, contextMakeActive_of_some P s c hc]
  cases ha : P.makeActive s.tick c.handle <;>
    simp [deletionEvents, ha, callHook, contextMakeInactive, emit]

theorem guardedStep_refl (s : OpenGLComponent) : GuardedStep s s :=
  ⟨[], by simp, rfl, rfl⟩

theorem guardedStep_trans (a b c : OpenGLComponent) (h1 : GuardedStep a b)
    (h2 : GuardedStep b c) : GuardedStep a c := by
  obtain ⟨x, hx, gx, ax⟩ := h1
  obtain ⟨y, hy, gy, ay⟩ := h2
  refine ⟨x ++ y, by rw [hy, hx, List.append_assoc], ?_, ?_⟩
  · rw [hooksGuarded_append, gx, ax, gy]; rfl
  · rw [activeAfter_append, ax, ay]

theorem guardedStep_eventsSince (s s' : OpenGLComponent) (h : GuardedStep s s') :
    hooksGuarded none (eventsSince s s') = true := by
  obtain ⟨x, hx, gx, _⟩ := h
  rw [eventsSince_of_append s s' x hx, gx]

theorem deleteContext_guarded (P : Platform) (s : OpenGLComponent) :
    GuardedStep s (deleteContext P s) := by
  cases hc : s.context with
  | none => exact ⟨[], by simp [deleteContext_of_none P s hc], rfl, rfl⟩
  | some c =>
    refine ⟨deletionEvents P s c, by rw [deleteContext_of_some P s c hc], ?_, ?_⟩ <;>
    cases ha : P.makeActive s.tick c.handle <;>
    simp [deletionEvents, ha, hooksGuarded, hookAllowed, activeStep, activeAfter]

theorem updateContext_guarded (P : Platform) (s : OpenGLComponent) :
    GuardedStep s (updateContext P s) := by
  have fresh : ∀ d : OpenGLComponent, d.needToDeleteContext = false →
      GuardedStep d (updateContext P d) := by
    intro d hn
    cases hc : d.context with
    | some c => rw [updateContext_of_some P d c hc hn]; exact guardedStep_refl d
    | none =>
      cases hm : P.createContext d.tick d.preferredPixelFormat d.contextToShareListsWith with
      | none =>
        rw [updateContext_of_fail P d hc hn hm]
        exact ⟨_, rfl, rfl, rfl⟩
      | some id =>
        rw [updateContext_of_made P d id hc hn hm]
        refine ⟨[Event.createContext d.preferredPixelFormat d.contextToShareListsWith true]
          ++ creationEvents P d d.tick, rfl, ?_, ?_⟩ <;>
        cases ha : P.makeActive (d.tick + 1) d.tick <;>
        cases hr : repositions P d <;>
        by_cases hp : (0 < d.width ∧ 0 < d.height ∧ d.peer = true) <;>
        simp [creationEvents, positionEvents, ha, hr, hp, hooksGuarded, hookAllowed, activeStep,
          activeAfter]
  cases hn : s.needToDeleteContext with
  | false => exact fresh s hn
  | true =>
    rw [updateContext_of_flag P s hn]
    exact guardedStep_trans _ _ _ (deleteContext_guarded P s)
      (fresh _ (deleteContext_needToDeleteContext P s))

theorem atActivation_guarded (P : Platform) (s : OpenGLComponent) :
    GuardedStep s (atActivation P s) := by
  unfold atActivation
  split
  · exact updateContext_guarded P s
  · exact guardedStep_refl s

theorem renderAndSwapBuffers_hooksGuarded (P : Platform) (s : OpenGLComponent) :
    hooksGuarded none (eventsSince s (renderAndSwapBuffers P s).2) = true := by
  obtain ⟨x, hx, gx, ax⟩ := atActivation_guarded P s
  have step : ∀ y : List Event, (renderAndSwapBuffers P s).2.trace = (atActivation P s).trace ++ y →
      hooksGuarded none y = true →
      hooksGuarded none (eventsSince s (renderAndSwapBuffers P s).2) = true := by
    intro y hy gy
    rw [eventsSince_of_append s _ (x ++ y) (by rw [hy, hx, List.append_assoc]),
      hooksGuarded_append, gx, ax, gy]
    rfl
  cases hc : (atActivation P s).context with
  | none =>
    exact step [] (by rw [renderAndSwapBuffers_of_none P s hc]; simp) rfl
  | some c =>
    cases ha : P.makeActive (atActivation P s).tick c.handle with
    | false =>
      have h := renderAndSwapBuffers_of_fail P s c hc ha
      exact step [Event.makeActive c.handle false] (by rw [h.1]; exact h.2) rfl
    | true =>
      have h := renderAndSwapBuffers_of_ok P s c hc ha
      refine step (frameEvents (atActivation P s) c) (by rw [h]) ?_
      cases hv : (atActivation P s).needToUpdateViewport <;>
        simp [frameEvents, hv, hooksGuarded, hookAllowed, activeStep]

theorem timerCallback_hooksGuarded (P : Platform) (img : OpenGLCachedComponentImage)
    (s : OpenGLComponent) :
    hooksGuarded none (eventsSince s (timerCallback P img s).2) = true := by
  cases hc : s.context with
  | none => simp [timerCallback_of_none P img s hc, eventsSince, hooksGuarded]
  | some c =>
    cases hm : P.makeActive s.tick c.handle with
    | false =>
      rw [eventsSince_of_append _ _ _
        (congrArg (fun r => r.2.trace) (timerCallback_of_fail P img s c hc hm))]
      rfl
    | true =>
      rw [eventsSince_of_append _ _ _
        (congrArg (fun r => r.2.trace) (timerCallback_of_ok P img s c hc hm))]
      cases hr : reallocates img s <;> cases hk : composites P s <;>
        by_cases hi : invalidRegion img s = ∅ <;>
        simp [passEvents, compositeEvents, hr, hk, hi, hooksGuarded, hookAllowed, activeStep]

/-- C4: in updateContext, deleteContext, renderAndSwapBuffers and
timerCallback, reading the entries the call adds to the log from a start with
no context current, each of the three hooks is entered only after a
makeActive on the owned context that returned true and before the next
makeInactive; and in deleteContext the release hook is entered while the
component still owns its context, never after the context is destroyed and
the handle set to null. -/
theorem hooks_run_with_context_active (P : Platform) (img : OpenGLCachedComponentImage)
    (s : OpenGLComponent) :
    hooksGuarded none (eventsSince s (updateContext P s)) = true
    ∧ hooksGuarded none (eventsSince s (deleteContext P s)) = true
    ∧ hooksGuarded none (eventsSince s (renderAndSwapBuffers P s).2) = true
    ∧ hooksGuarded none (eventsSince s (timerCallback P img s).2) = true
    ∧ releaseBeforeDeletion (eventsSince s (deleteContext P s)) = true
    ∧ (∀ owned, Event.hook Hook.releaseOpenGLContext owned ∈ eventsSince s (deleteContext P s) →
        owned.isSome = true ∧ owned = s.context.map OpenGLContext.handle) := by
  refine ⟨guardedStep_eventsSince _ _ (updateContext_guarded P s),
    guardedStep_eventsSince _ _ (deleteContext_guarded P s),
    renderAndSwapBuffers_hooksGuarded P s, timerCallback_hooksGuarded P img s, ?_, ?_⟩
  · cases hc : s.context with
    | none => simp [deleteContext_of_none P s hc, eventsSince, releaseBeforeDeletion]
    | some c =>
      rw [eventsSince_of_append _ _ _
        (congrArg OpenGLComponent.trace (deleteContext_of_some P s c hc))]
      cases ha : P.makeActive s.tick c.handle <;>
        simp [deletionEvents, ha, releaseBeforeDeletion, Event.isReleaseHook]
  · intro owned hm
    cases hc : s.context with
    | none => simp [deleteContext_of_none P s hc, eventsSince] at hm
    | some c =>
      rw [eventsSince_of_append _ _ _
        (congrArg OpenGLComponent.trace (deleteContext_of_some P s c hc))] at hm
      cases ha : P.makeActive s.tick c.handle <;>
        simp [deletionEvents, ha] at hm
      simp [hm]

/-! ## The context matches the last request (C1) -/

theorem equals_iff (a b : OpenGLPixelFormat) : a.equals b = true ↔ a = b := by
  cases a; cases b
  simp only [OpenGLPixelFormat.equals, Bool.and_eq_true, decide_eq_true_eq,
    OpenGLPixelFormat.mk.injEq]
  tauto

theorem upToDate_of_keeps (s s' : OpenGLComponent) (h : UpToDate s) (k : Keeps s s') :
    UpToDate s' := by
  obtain ⟨k1, k2, k3, k4⟩ := k
  intro hn c' hc'
  obtain ⟨c, hc, e1, e2⟩ := k4 c' hc'
  have := h (by rw [← k3]; exact hn) c hc
  rw [e1, e2, k1, k2]
  exact this

theorem keeps_refl (s : OpenGLComponent) : Keeps s s :=
  ⟨rfl, rfl, rfl, fun c' h => ⟨c', h, rfl, rfl⟩⟩

theorem upToDate_of_context_none (s : OpenGLComponent) (h : s.context = none) : UpToDate s := by
  intro _ c hc
  rw [h] at hc
  cases hc

theorem upToDate_of_pending (s : OpenGLComponent) (h : s.needToDeleteContext = true) :
    UpToDate s := by
  intro hn
  rw [h] at hn
  cases hn

theorem makeCurrentRenderingTarget_keeps (P : Platform) (s : OpenGLComponent) :
    Keeps s (makeCurrentRenderingTarget P s).2 := by
  cases hc : s.context with
  | none => simp [makeCurrentRenderingTarget, hc, keeps_refl]
  | some c =>
    simp only [makeCurrentRenderingTarget, hc, contextMakeActive_of_some P s c hc]
    exact ⟨rfl, rfl, rfl, fun c' h => ⟨c, hc, by cases h; exact ⟨rfl, rfl⟩⟩⟩

theorem releaseAsRenderingTarget_keeps (s : OpenGLComponent) :
    Keeps s (releaseAsRenderingTarget s) := by
  cases hc : s.context with
  | none => simp [releaseAsRenderingTarget, hc, keeps_refl]
  | some c =>
    simp only [releaseAsRenderingTarget, hc, contextMakeInactive_of_some s c hc]
    exact ⟨rfl, rfl, rfl, fun c' h => ⟨c, hc, by cases h; exact ⟨rfl, rfl⟩⟩⟩

theorem swapBuffers_keeps (s : OpenGLComponent) : Keeps s (swapBuffers s) := by
  cases hc : s.context with
  | none => simp [swapBuffers, hc, keeps_refl]
  | some c =>
    simp only [swapBuffers, hc, emit]
    exact ⟨rfl, rfl, rfl, fun c' h => ⟨c, hc, by cases h; exact ⟨rfl, rfl⟩⟩⟩

theorem updateContextPosition_keeps (s : OpenGLComponent) :
    Keeps s (updateContextPosition s) := by
  rw [updateContextPosition_eq]
  exact ⟨rfl, rfl, rfl, fun c' h => ⟨c', h, rfl, rfl⟩⟩

theorem timerCallback_keeps (P : Platform) (img : OpenGLCachedComponentImage)
    (s : OpenGLComponent) : Keeps s (timerCallback P img s).2 := by
  cases hc : s.context with
  | none => rw [timerCallback_of_none P img s hc]; exact keeps_refl s
  | some c =>
    cases hm : P.makeActive s.tick c.handle with
    | false =>
      rw [timerCallback_of_fail P img s c hc hm]
      exact ⟨rfl, rfl, rfl, fun c' h => ⟨c, hc, by cases h; exact ⟨rfl, rfl⟩⟩⟩
    | true =>
      rw [timerCallback_of_ok P img s c hc hm]
      exact ⟨rfl, rfl, rfl, fun c' h => ⟨c, hc, by cases h; exact ⟨rfl, rfl⟩⟩⟩

theorem deleteContext_upToDate (P : Platform) (s : OpenGLComponent) :
    UpToDate (deleteContext P s) :=
  upToDate_of_context_none _ (deleteContext_context P s)

theorem updateContext_upToDate (P : Platform) (s : OpenGLComponent) (h : UpToDate s) :
    UpToDate (updateContext P s) := by
  have fresh : ∀ d : OpenGLComponent, d.needToDeleteContext = false → UpToDate d →
      UpToDate (updateContext P d) := by
    intro d hn hd
    cases hc : d.context with
    | some c => rw [updateContext_of_some P d c hc hn]; exact hd
    | none =>
      cases hm : P.createContext d.tick d.preferredPixelFormat d.contextToShareListsWith with
      | none =>
        rw [updateContext_of_fail P d hc hn hm]
        exact upToDate_of_context_none _ hc
      | some id =>
        rw [updateContext_of_made P d id hc hn hm]
        intro _ c hcc
        cases hcc
        exact ⟨rfl, rfl⟩
  cases hn : s.needToDeleteContext with
  | false => exact fresh s hn h
  | true =>
    rw [updateContext_of_flag P s hn]
    exact fresh _ (deleteContext_needToDeleteContext P s) (deleteContext_upToDate P s)

theorem atActivation_upToDate (P : Platform) (s : OpenGLComponent) (h : UpToDate s) :
    UpToDate (atActivation P s) := by
  unfold atActivation
  split
  · exact updateContext_upToDate P s h
  · exact h

theorem renderAndSwapBuffers_upToDate (P : Platform) (s : OpenGLComponent) (h : UpToDate s) :
    UpToDate (renderAndSwapBuffers P s).2 := by
  have ha := atActivation_upToDate P s h
  cases hc : (atActivation P s).context with
  | none => rw [renderAndSwapBuffers_of_none P s hc]; exact ha
  | some c =>
    cases hm : P.makeActive (atActivation P s).tick c.handle with
    | false =>
      rw [(renderAndSwapBuffers_of_fail P s c hc hm).1,
        contextMakeActive_of_some P _ c hc]
      exact upToDate_of_keeps _ _ ha
        ⟨rfl, rfl, rfl, fun c' h => ⟨c, hc, by cases h; exact ⟨rfl, rfl⟩⟩⟩
    | true =>
      rw [renderAndSwapBuffers_of_ok P s c hc hm]
      exact upToDate_of_keeps _ _ ha
        ⟨rfl, rfl, rfl, fun c' h => ⟨c, hc, by cases h; exact ⟨rfl, rfl⟩⟩⟩

theorem setPixelFormat_upToDate (f : OpenGLPixelFormat) (s : OpenGLComponent) (h : UpToDate s) :
    UpToDate (setPixelFormat f s) := by
  unfold setPixelFormat
  split
  · exact upToDate_of_pending _ rfl
  · exact h

theorem shareWith_upToDate (c : Option Nat) (s : OpenGLComponent) (h : UpToDate s) :
    UpToDate (shareWith c s) := by
  unfold shareWith
  split
  · exact upToDate_of_pending _ rfl
  · exact h

theorem runExit_upToDate (P : Platform) (s : OpenGLComponent) (h : UpToDate s) :
    UpToDate (runExit P s) := by
  unfold runExit
  split
  · split
    · exact deleteContext_upToDate P s
    · exact h
  · exact h

theorem stopRenderThread_upToDate (P : Platform) (s : OpenGLComponent) (h : UpToDate s) :
    UpToDate (stopRenderThread P s) := by
  cases hl : P.linux <;> cases hr : s.renderThread
  · simp only [stopRenderThread, hl, hr, Bool.not_false, if_true, Bool.false_eq_true, if_false]
    exact deleteContext_upToDate P _
  · simp only [stopRenderThread, hl, hr, Bool.not_false, if_true]
    exact deleteContext_upToDate P _
  · simp only [stopRenderThread, hl, hr, Bool.not_true, Bool.false_eq_true, if_false]
    exact h
  · simp only [stopRenderThread, hl, hr, Bool.not_true, Bool.false_eq_true, if_false, if_true]
    exact runExit_upToDate P (emit s (Event.stopThread 5000)) h

theorem stopBackgroundThread_upToDate (P : Platform) (s : OpenGLComponent) (h : UpToDate s) :
    UpToDate (stopBackgroundThread P s) := by
  unfold stopBackgroundThread
  split
  · exact stopRenderThread_upToDate P s h
  · exact h

theorem paint_upToDate (P : Platform) (img : OpenGLCachedComponentImage) (s : OpenGLComponent)
    (r : OpenGLCachedComponentImage × OpenGLComponent) (h : UpToDate s)
    (hp : paint P img s = some r) : UpToDate r.2 := by
  have h0 : UpToDate (if s.peer = true then emit s (Event.addMaskedRegion s.width s.height)
      else s) := by
    split
    · exact h
    · exact h
  unfold paint at hp
  generalize (if s.peer = true then emit s (Event.addMaskedRegion s.width s.height) else s) = a
    at h0 hp
  have h1 : UpToDate (if (!P.linux) = true then updateContext P a else a) := by
    split
    · exact updateContext_upToDate P a h0
    · exact h0
  dsimp only at hp
  generalize (if (!P.linux) = true then updateContext P a else a) = u at h1 hp
  cases hd : isUsingDedicatedThread P a
  · cases hi : (updateContext P a).cachedImageInstalled
    · simp [hd, hi] at hp
    · cases ht : img.timerInterval.isSome
      · simp only [hd, hi, ht, Bool.false_eq_true, if_false, Bool.not_true, Option.some.injEq]
          at hp
        rw [← hp]
        exact updateContext_upToDate P a h0
      · simp only [hd, hi, ht, Bool.false_eq_true, if_false, if_true, Bool.not_true,
          Option.some.injEq] at hp
        rw [← hp]
        exact upToDate_of_keeps _ _ (updateContext_upToDate P a h0) (timerCallback_keeps P img _)
  · cases hv : (a.peer && a.showing)
    · simp only [hd, hv, Bool.false_eq_true, if_false, if_true, Option.some.injEq] at hp
      rw [← hp]
      exact h0
    · cases hi : u.cachedImageInstalled
      · simp [hd, hv, hi] at hp
      · cases hs : u.threadStarted
        · simp only [hd, hv, hi, hs, if_true, Bool.not_false, Bool.not_true, Bool.false_eq_true,
            if_false, Option.some.injEq] at hp
          rw [← hp]
          exact h1
        · simp only [hd, hv, hi, hs, if_true, Bool.not_true, Bool.false_eq_true, if_false,
            Option.some.injEq] at hp
          rw [← hp]
          exact h1

theorem reachable_upToDate (P : Platform) (s : OpenGLComponent) (h : Reachable P s) :
    UpToDate s := by
  induction h with
  | create flags format => exact upToDate_of_context_none _ rfl
  | setPixelFormat f s _ ih => exact setPixelFormat_upToDate f s ih
  | shareWith c s _ ih => exact shareWith_upToDate c s ih
  | recreateContextAsync s _ ih => exact upToDate_of_pending _ rfl
  | updateContext s _ ih => exact updateContext_upToDate P s ih
  | deleteContext s _ ih => exact deleteContext_upToDate P s
  | updateContextPosition s _ ih => exact upToDate_of_keeps _ _ ih (updateContextPosition_keeps s)
  | makeCurrentRenderingTarget s _ ih =>
    exact upToDate_of_keeps _ _ ih (makeCurrentRenderingTarget_keeps P s)
  | releaseAsRenderingTarget s _ ih =>
    exact upToDate_of_keeps _ _ ih (releaseAsRenderingTarget_keeps s)
  | swapBuffers s _ ih => exact upToDate_of_keeps _ _ ih (swapBuffers_keeps s)
  | renderAndSwapBuffers s _ ih => exact renderAndSwapBuffers_upToDate P s ih
  | startRenderThread s _ ih => exact ih
  | stopRenderThread s _ ih => exact stopRenderThread_upToDate P s ih
  | stopBackgroundThread s _ ih => exact stopBackgroundThread_upToDate P s ih
  | componentVisibilityChanged s _ ih =>
    unfold JuceOpenGL.componentVisibilityChanged
    split
    · exact stopBackgroundThread_upToDate P s ih
    · exact ih
  | timerCallback img s _ ih => exact upToDate_of_keeps _ _ ih (timerCallback_keeps P img s)
  | addMaskedRegion w h s _ ih => exact ih
  | paint img s r _ hp ih => exact paint_upToDate P img s r ih hp
  | component w h showing peer s _ ih => exact ih

theorem setPixelFormat_fields (f : OpenGLPixelFormat) (s : OpenGLComponent) :
    (setPixelFormat f s).preferredPixelFormat = f
    ∧ (setPixelFormat f s).contextToShareListsWith = s.contextToShareListsWith
    ∧ (setPixelFormat f s).context = s.context := by
  unfold setPixelFormat
  cases he : s.preferredPixelFormat.equals f
  · simp [recreateContextAsync, emit]
  · simp [(equals_iff _ _).mp he]

theorem shareWith_fields (c : Option Nat) (s : OpenGLComponent) :
    (shareWith c s).preferredPixelFormat = s.preferredPixelFormat
    ∧ (shareWith c s).contextToShareListsWith = c
    ∧ (shareWith c s).context = s.context := by
  unfold shareWith
  by_cases he : s.contextToShareListsWith = c
  · simp [he]
  · simp [he, recreateContextAsync, emit]

theorem runRequests_fields (rs : List Request) (s : OpenGLComponent) :
    (runRequests rs s).preferredPixelFormat = lastFormat rs s.preferredPixelFormat
    ∧ (runRequests rs s).contextToShareListsWith = lastShare rs s.contextToShareListsWith
    ∧ (runRequests rs s).context = s.context := by
  induction rs generalizing s with
  | nil => exact ⟨rfl, rfl, rfl⟩
  | cons r rs ih =>
    have h := ih (r.run s)
    cases r with
    | setPixelFormat f =>
      have hf := setPixelFormat_fields f s
      simp only [runRequests, lastFormat, lastShare, List.foldl_cons, Request.run] at h ⊢
      rw [hf.1, hf.2.1, hf.2.2] at h
      exact h
    | shareWith c =>
      have hf := shareWith_fields c s
      simp only [runRequests, lastFormat, lastShare, List.foldl_cons, Request.run] at h ⊢
      rw [hf.1, hf.2.1, hf.2.2] at h
      exact h

theorem runRequests_upToDate (rs : List Request) (s : OpenGLComponent) (h : UpToDate s) :
    UpToDate (runRequests rs s) := by
  induction rs generalizing s with
  | nil => exact h
  | cons r rs ih =>
    cases r with
    | setPixelFormat f => exact ih _ (setPixelFormat_upToDate f s h)
    | shareWith c => exact ih _ (shareWith_upToDate c s h)

theorem updateContext_fields (P : Platform) (s : OpenGLComponent) :
    (updateContext P s).preferredPixelFormat = s.preferredPixelFormat
    ∧ (updateContext P s).contextToShareListsWith = s.contextToShareListsWith := by
  have fresh : ∀ d : OpenGLComponent, d.needToDeleteContext = false →
      (updateContext P d).preferredPixelFormat = d.preferredPixelFormat
      ∧ (updateContext P d).contextToShareListsWith = d.contextToShareListsWith := by
    intro d hn
    cases hc : d.context with
    | some c => rw [updateContext_of_some P d c hc hn]; exact ⟨rfl, rfl⟩
    | none =>
      cases hm : P.createContext d.tick d.preferredPixelFormat d.contextToShareListsWith with
      | none => rw [updateContext_of_fail P d hc hn hm]; exact ⟨rfl, rfl⟩
      | some id => rw [updateContext_of_made P d id hc hn hm]; exact ⟨rfl, rfl⟩
  cases hn : s.needToDeleteContext with
  | false => exact fresh s hn
  | true =>
    rw [updateContext_of_flag P s hn]
    have hd := fresh _ (deleteContext_needToDeleteContext P s)
    cases hc : s.context with
    | none => rw [deleteContext_of_none P s hc] at hd ⊢; exact hd
    | some c => rw [deleteContext_of_some P s c hc] at hd ⊢; exact hd

theorem updateContext_needToDeleteContext (P : Platform) (s : OpenGLComponent) :
    (updateContext P s).needToDeleteContext = false := by
  have fresh : ∀ d : OpenGLComponent, d.needToDeleteContext = false →
      (updateContext P d).needToDeleteContext = false := by
    intro d hn
    cases hc : d.context with
    | some c => rw [updateContext_of_some P d c hc hn]; exact hn
    | none =>
      cases hm : P.createContext d.tick d.preferredPixelFormat d.contextToShareListsWith with
      | none => rw [updateContext_of_fail P d hc hn hm]; exact hn
      | some id => rw [updateContext_of_made P d id hc hn hm]; exact hn
  cases hn : s.needToDeleteContext with
  | false => exact fresh s hn
  | true =>
    rw [updateContext_of_flag P s hn]
    exact fresh _ (deleteContext_needToDeleteContext P s)

theorem updateContext_deletes_pending (P : Platform) (s : OpenGLComponent) (c : OpenGLContext)
    (hn : s.needToDeleteContext = true) (hc : s.context = some c) :
    Event.contextDeleted c.handle ∈ eventsSince s (updateContext P s) := by
  obtain ⟨y, hy, _, _⟩ := updateContext_guarded P (deleteContext P s)
  rw [updateContext_of_flag P s hn]
  have hd : (deleteContext P s).trace = s.trace ++ deletionEvents P s c := by
    rw [deleteContext_of_some P s c hc]
  rw [eventsSince_of_append s _ (deletionEvents P s c ++ y)
    (by rw [hy, hd, List.append_assoc])]
  simp [deletionEvents]

/-- C1: from any reachable state, after any finite sequence of setPixelFormat
and shareWith calls followed by one updateContext, needToDeleteContext is
false, and a context that exists then was made by createContext for the format
and the share target of the last request of each kind (those in force before
the sequence, for a kind the sequence does not contain); a context that was
owned before and was made for another format or share target is destroyed by
that updateContext. -/
theorem updateContext_matches_last_request (P : Platform) (s : OpenGLComponent)
    (rs : List Request) (h : Reachable P s) :
    (updateContext P (runRequests rs s)).needToDeleteContext = false
    ∧ (∀ c, (updateContext P (runRequests rs s)).context = some c →
        c.pixelFormat = lastFormat rs s.preferredPixelFormat
        ∧ c.sharedWith = lastShare rs s.contextToShareListsWith)
    ∧ (∀ c0, s.context = some c0 →
        (c0.pixelFormat ≠ lastFormat rs s.preferredPixelFormat
          ∨ c0.sharedWith ≠ lastShare rs s.contextToShareListsWith) →
        Event.contextDeleted c0.handle
          ∈ eventsSince (runRequests rs s) (updateContext P (runRequests rs s))) := by
  have hu := runRequests_upToDate rs s (reachable_upToDate P s h)
  have hf := runRequests_fields rs s
  have hn := updateContext_needToDeleteContext P (runRequests rs s)
  refine ⟨hn, ?_, ?_⟩
  · intro c hc
    have := updateContext_upToDate P _ hu hn c hc
    rw [(updateContext_fields P _).1, (updateContext_fields P _).2, hf.1, hf.2.1] at this
    exact this
  · intro c0 hc0 hstale
    have hc : (runRequests rs s).context = some c0 := by rw [hf.2.2]; exact hc0
    cases hp : (runRequests rs s).needToDeleteContext with
    | true => exact updateContext_deletes_pending P _ c0 hp hc
    | false =>
      have := hu hp c0 hc
      rw [hf.1, hf.2.1] at this
      rcases hstale with h1 | h1
      · exact absurd this.1 h1
      · exact absurd this.2 h1

/-- The witness for C1: the sample component, asked for another format, then
for a share target, then for a third format. -/
theorem updateContext_matches_last_request_witness :
    Reachable samplePlatform (sampleOwner 0)
    ∧ (updateContext samplePlatform
        (runRequests [Request.setPixelFormat (OpenGLPixelFormat.create 5 5 5 5),
            Request.shareWith (some 7),
            Request.setPixelFormat (OpenGLPixelFormat.create 8 8 24 8)]
          (sampleOwner 0))).needToDeleteContext = false :=
  ⟨Reachable.updateContext _ (Reachable.create 0 (OpenGLPixelFormat.create 8 8 16 0)),
    (updateContext_matches_last_request samplePlatform (sampleOwner 0)
      [Request.setPixelFormat (OpenGLPixelFormat.create 5 5 5 5),
        Request.shareWith (some 7),
        Request.setPixelFormat (OpenGLPixelFormat.create 8 8 24 8)]
      (Reachable.updateContext _ (Reachable.create 0 (OpenGLPixelFormat.create 8 8 16 0)))).1⟩

/-! ## The first updateContext and the ones after it (C9) -/

theorem atActivation_of_some (P : Platform) (s : OpenGLComponent) (c : OpenGLContext)
    (hc : s.context = some c) (hn : P.linux = true → s.needToDeleteContext = false) :
    atActivation P s = s := by
  unfold atActivation
  split
  · rename_i hl
    exact updateContext_of_some P s c hc (hn hl)
  · rfl

theorem renderAndSwapBuffers_no_viewport (P : Platform) (s : OpenGLComponent)
    (c : OpenGLContext) (hc : s.context = some c)
    (hn : P.linux = true → s.needToDeleteContext = false)
    (hv : s.needToUpdateViewport = false) :
    (eventsSince s (renderAndSwapBuffers P s).2).filter Event.isViewport = [] := by
  have hfix := atActivation_of_some P s c hc hn
  have hc2 : (atActivation P s).context = some c := by rw [hfix]; exact hc
  cases hm : P.makeActive s.tick c.handle with
  | false =>
    have h2 := renderAndSwapBuffers_of_fail P s c hc2 (by rw [hfix]; exact hm)
    rw [eventsSince_of_append s _ [Event.makeActive c.handle false]
      (by rw [h2.1]; simpa [hfix] using h2.2)]
    rfl
  | true =>
    have h2 := renderAndSwapBuffers_of_ok P s c hc2 (by rw [hfix]; exact hm)
    rw [eventsSince_of_append s _ (frameEvents (atActivation P s) c)
      (by rw [h2]; simp [hfix])]
    simp [frameEvents, hfix, hv, Event.isViewport]

/-- C10, as amended: in a state in which a context exists, the activation
succeeds and (in a JUCE_LINUX build, where the call starts with
updateContext) no recreation is pending, one renderAndSwapBuffers call returns
true and performs, in this order and nothing else: makeActive, glViewport if
and only if needToUpdateViewport was set, renderOpenGL once, swapBuffers once.
It does not call makeInactive: the context is still active afterwards.
needToUpdateViewport is false afterwards, so a call directly after, and any
later call made while a context is owned, needToUpdateViewport is still false
and (JUCE_LINUX) no recreation is pending, issues no glViewport. -/
theorem renderAndSwapBuffers_frame (P : Platform) (s : OpenGLComponent) (c : OpenGLContext)
    (hc : s.context = some c) (hn : P.linux = true → s.needToDeleteContext = false)
    (ha : P.makeActive s.tick c.handle = true) :
    (renderAndSwapBuffers P s).1 = true
    ∧ eventsSince s (renderAndSwapBuffers P s).2
        = [Event.makeActive c.handle true]
          ++ (if s.needToUpdateViewport then [Event.glViewport s.width s.height] else [])
          ++ [Event.hook Hook.renderOpenGL (some c.handle), Event.swapBuffers c.handle]
    ∧ (renderAndSwapBuffers P s).2.needToUpdateViewport = false
    ∧ (renderAndSwapBuffers P s).2.context = some { c with active := true }
    ∧ (eventsSince (renderAndSwapBuffers P s).2
          (renderAndSwapBuffers P (renderAndSwapBuffers P s).2).2).filter Event.isViewport = []
    ∧ (∀ (s' : OpenGLComponent) (c' : OpenGLContext), s'.context = some c' →
        (P.linux = true → s'.needToDeleteContext = false) →
        s'.needToUpdateViewport = false →
        (eventsSince s' (renderAndSwapBuffers P s').2).filter Event.isViewport = []) := by
  have hfix := atActivation_of_some P s c hc hn
  have hc2 : (atActivation P s).context = some c := by rw [hfix]; exact hc
  have hok := renderAndSwapBuffers_of_ok P s c hc2 (by rw [hfix]; exact ha)
  rw [hfix] at hok
  refine ⟨by rw [hok], ?_, by rw [hok], by rw [hok], ?_,
    fun s' c' hc' hn' hv' => renderAndSwapBuffers_no_viewport P s' c' hc' hn' hv'⟩
  · rw [eventsSince_of_append _ _ _ (congrArg (fun r => r.2.trace) hok)]
    rfl
  · exact renderAndSwapBuffers_no_viewport P _ { c with active := true } (by rw [hok])
      (by rw [hok]; exact hn) (by rw [hok])

/-- The witness for C10 as amended: one frame of the sample component. -/
theorem renderAndSwapBuffers_frame_witness :
    (sampleOwner 4).context = some sampleContext
    ∧ (samplePlatform.linux = true → (sampleOwner 4).needToDeleteContext = false)
    ∧ samplePlatform.makeActive (sampleOwner 4).tick sampleContext.handle = true
    ∧ (renderAndSwapBuffers samplePlatform (sampleOwner 4)).2.context
        = some { sampleContext with active := true } :=
  ⟨sampleOwner_context 4, fun _ => sampleOwner_needToDeleteContext 4, rfl,
    (renderAndSwapBuffers_frame samplePlatform (sampleOwner 4) sampleContext
      (sampleOwner_context 4) (fun _ => sampleOwner_needToDeleteContext 4) rfl).2.2.2.1⟩

/-- C10 as stated fails: one frame of the sample component activates the
context, issues the viewport, renders and swaps, and stops there; no
makeInactive is called and the context is still active afterwards. -/
theorem renderAndSwapBuffers_leaves_context_active :
    (sampleOwner 4).context = some sampleContext
    ∧ samplePlatform.makeActive (sampleOwner 4).tick sampleContext.handle = true
    ∧ eventsSince (sampleOwner 4) (renderAndSwapBuffers samplePlatform (sampleOwner 4)).2
        = [Event.makeActive 0 true, Event.glViewport 0 0,
            Event.hook Hook.renderOpenGL (some 0), Event.swapBuffers 0]
    ∧ (eventsSince (sampleOwner 4)
        (renderAndSwapBuffers samplePlatform (sampleOwner 4)).2).filter Event.isMakeInactive = []
    ∧ ((renderAndSwapBuffers samplePlatform (sampleOwner 4)).2.context.map
        OpenGLContext.active) = some true := by
  have hok := renderAndSwapBuffers_of_ok samplePlatform (sampleOwner 4) sampleContext
    (sampleOwner_context 4) rfl
  have hev : eventsSince (sampleOwner 4) (renderAndSwapBuffers samplePlatform (sampleOwner 4)).2
      = [Event.makeActive 0 true, Event.glViewport 0 0,
          Event.hook Hook.renderOpenGL (some 0), Event.swapBuffers 0] := by
    rw [eventsSince_of_append (sampleOwner 4) _
      (frameEvents (atActivation samplePlatform (sampleOwner 4)) sampleContext)
      (by rw [hok]; rfl)]
    simp [frameEvents, atActivation, samplePlatform, sampleOwner_eq, OpenGLComponent.create,
      sampleContext]
  refine ⟨sampleOwner_context 4, rfl, hev, ?_, ?_⟩
  · rw [hev]; rfl
  · rw [hok]; rfl

/-! ## Hiding the component while the render thread runs (C8) -/

theorem sampleHiddenOwner_context : sampleHiddenOwner.context = some sampleContext := by
  rfl

/-- C8, as amended: in a build without JUCE_LINUX, when a context exists and
the render thread has been started, a visibility change with the component no
longer showing stops the render thread and clears threadStarted, and
stopRenderThread goes on to delete the context: it activates it, enters the
release hook if the activation succeeded, destroys it and removes the cached
image.  Afterwards context is null and needToDeleteContext is false. -/
theorem componentVisibilityChanged_deletes_context (P : Platform) (s : OpenGLComponent)
    (c : OpenGLContext) (hl : P.linux = false) (hc : s.context = some c)
    (ht : s.threadStarted = true) (hr : s.renderThread = true) (hs : s.showing = false) :
    (componentVisibilityChanged P s).threadStarted = false
    ∧ (componentVisibilityChanged P s).renderThread = false
    ∧ (componentVisibilityChanged P s).context = none
    ∧ (componentVisibilityChanged P s).needToDeleteContext = false
    ∧ eventsSince s (componentVisibilityChanged P s)
        = [Event.stopThread 5000, Event.makeActive c.handle (P.makeActive s.tick c.handle)]
          ++ (if P.makeActive s.tick c.handle then
                [Event.hook Hook.releaseOpenGLContext (some c.handle),
                  Event.makeInactive c.handle]
              else [])
          ++ [Event.contextDeleted c.handle, Event.setCachedComponentImageNull] := by
  have hstop : componentVisibilityChanged P s
      = { deleteContext P { emit s (Event.stopThread 5000) with renderThread := false } with
          threadStarted := false } := by
    simp [componentVisibilityChanged, stopBackgroundThread, stopRenderThread, runExit, hl, ht, hr,
      hs]
  have hdel := deleteContext_of_some P
    { emit s (Event.stopThread 5000) with renderThread := false } c hc
  rw [hstop, hdel]
  refine ⟨rfl, rfl, rfl, rfl, ?_⟩
  apply eventsSince_of_append
  simp [emit, deletionEvents]

/-- The witness for C8 as amended: hiding the sample component. -/
theorem componentVisibilityChanged_deletes_context_witness :
    samplePlatform.linux = false
    ∧ sampleHiddenOwner.context = some sampleContext
    ∧ sampleHiddenOwner.threadStarted = true
    ∧ sampleHiddenOwner.renderThread = true
    ∧ sampleHiddenOwner.showing = false
    ∧ (componentVisibilityChanged samplePlatform sampleHiddenOwner).context = none :=
  ⟨rfl, sampleHiddenOwner_context, rfl, rfl, rfl,
    (componentVisibilityChanged_deletes_context samplePlatform sampleHiddenOwner sampleContext
      rfl sampleHiddenOwner_context rfl rfl rfl).2.2.1⟩

/-- C8 as stated fails: hiding the sample component while its render thread
runs leaves it with no context, and the release hook has been entered. -/
theorem componentVisibilityChanged_drops_context :
    sampleHiddenOwner.context = some sampleContext
    ∧ sampleHiddenOwner.threadStarted = true
    ∧ sampleHiddenOwner.showing = false
    ∧ (componentVisibilityChanged samplePlatform sampleHiddenOwner).context = none
    ∧ Event.hook Hook.releaseOpenGLContext (some 0)
        ∈ eventsSince sampleHiddenOwner
            (componentVisibilityChanged samplePlatform sampleHiddenOwner) := by
  have hstop : componentVisibilityChanged samplePlatform sampleHiddenOwner
      = { deleteContext samplePlatform
            { emit sampleHiddenOwner (Event.stopThread 5000) with renderThread := false } with
          threadStarted := false } := by
    have h1 : sampleHiddenOwner.showing = false := rfl
    have h2 : sampleHiddenOwner.threadStarted = true := rfl
    have h3 : sampleHiddenOwner.renderThread = true := rfl
    have h4 : samplePlatform.linux = false := rfl
    simp [componentVisibilityChanged, stopBackgroundThread, stopRenderThread, runExit,
      h1, h2, h3, h4]
  have hdel := deleteContext_of_some samplePlatform
    { emit sampleHiddenOwner (Event.stopThread 5000) with renderThread := false } sampleContext
    sampleHiddenOwner_context
  refine ⟨sampleHiddenOwner_context, rfl, rfl, by rw [hstop, hdel], ?_⟩
  rw [hstop, hdel, eventsSince_of_append sampleHiddenOwner _
    ([Event.stopThread 5000] ++ deletionEvents samplePlatform
      { emit sampleHiddenOwner (Event.stopThread 5000) with renderThread := false }
      sampleContext) (by simp [emit])]
  simp [deletionEvents, samplePlatform, sampleContext]

/-! ## What renderAndSwapBuffers returns, and what it has done by then (C3) -/

theorem quietStep_refl (s : OpenGLComponent) : QuietStep s s :=
  ⟨[], by simp, rfl⟩

theorem quietStep_trans (a b c : OpenGLComponent) (h1 : QuietStep a b) (h2 : QuietStep b c) :
    QuietStep a c := by
  obtain ⟨x, hx, qx⟩ := h1
  obtain ⟨y, hy, qy⟩ := h2
  exact ⟨x ++ y, by rw [hy, hx, List.append_assoc], by rw [List.filter_append, qx, qy]; rfl⟩

theorem deleteContext_quiet (P : Platform) (s : OpenGLComponent) :
    QuietStep s (deleteContext P s) := by
  cases hc : s.context with
  | none => exact ⟨[], by simp [deleteContext_of_none P s hc], rfl⟩
  | some c =>
    refine ⟨deletionEvents P s c, by rw [deleteContext_of_some P s c hc], ?_⟩
    cases ha : P.makeActive s.tick c.handle <;>
      simp [deletionEvents, ha, Event.isRenderOrSwap]

theorem updateContext_quiet (P : Platform) (s : OpenGLComponent) :
    QuietStep s (updateContext P s) := by
  have fresh : ∀ d : OpenGLComponent, d.needToDeleteContext = false →
      QuietStep d (updateContext P d) := by
    intro d hn
    cases hc : d.context with
    | some c => rw [updateContext_of_some P d c hc hn]; exact quietStep_refl d
    | none =>
      cases hm : P.createContext d.tick d.preferredPixelFormat d.contextToShareListsWith with
      | none =>
        rw [updateContext_of_fail P d hc hn hm]
        exact ⟨_, rfl, rfl⟩
      | some id =>
        rw [updateContext_of_made P d id hc hn hm]
        refine ⟨[Event.createContext d.preferredPixelFormat d.contextToShareListsWith true]
          ++ creationEvents P d d.tick, rfl, ?_⟩
        cases ha : P.makeActive (d.tick + 1) d.tick <;>
        cases hr : repositions P d <;>
        by_cases hp : (0 < d.width ∧ 0 < d.height ∧ d.peer = true) <;>
        simp [creationEvents, positionEvents, ha, hr, hp, Event.isRenderOrSwap]
  cases hn : s.needToDeleteContext with
  | false => exact fresh s hn
  | true =>
    rw [updateContext_of_flag P s hn]
    exact quietStep_trans _ _ _ (deleteContext_quiet P s)
      (fresh _ (deleteContext_needToDeleteContext P s))

theorem atActivation_quiet (P : Platform) (s : OpenGLComponent) :
    QuietStep s (atActivation P s) := by
  unfold atActivation
  split
  · exact updateContext_quiet P s
  · exact quietStep_refl s

/-- C3: renderAndSwapBuffers returns false exactly when, at its
`context != nullptr` test (line 522, reached after updateContext in a
JUCE_LINUX build), a context exists and makeActive on it fails.  With no
context there it returns true, adds nothing to the log after that point, and
the whole call has entered no renderOpenGL and called no swapBuffers.  When it
returns false, the only entry it adds after that point is the failed
makeActive, and the whole call has entered no renderOpenGL and called no
swapBuffers. -/
theorem renderAndSwapBuffers_false_iff (P : Platform) (s : OpenGLComponent) :
    ((renderAndSwapBuffers P s).1 = false ↔
      ∃ c, (atActivation P s).context = some c
        ∧ P.makeActive (atActivation P s).tick c.handle = false)
    ∧ ((atActivation P s).context = none →
        (renderAndSwapBuffers P s).1 = true
        ∧ eventsSince (atActivation P s) (renderAndSwapBuffers P s).2 = []
        ∧ (eventsSince s (renderAndSwapBuffers P s).2).filter Event.isRenderOrSwap = [])
    ∧ ((renderAndSwapBuffers P s).1 = false →
        (∃ c, (atActivation P s).context = some c
          ∧ eventsSince (atActivation P s) (renderAndSwapBuffers P s).2
              = [Event.makeActive c.handle false])
        ∧ (eventsSince s (renderAndSwapBuffers P s).2).filter Event.isRenderOrSwap = []) := by
  have key : (renderAndSwapBuffers P s).1 = false →
      ∃ c, (atActivation P s).context = some c
        ∧ P.makeActive (atActivation P s).tick c.handle = false := by
    intro hr
    cases h : (atActivation P s).context with
    | none => rw [renderAndSwapBuffers_of_none P s h] at hr; simp at hr
    | some c =>
      cases hf : P.makeActive (atActivation P s).tick c.handle with
      | false => exact ⟨c, rfl, hf⟩
      | true => rw [renderAndSwapBuffers_of_ok P s c h hf] at hr; simp at hr
  obtain ⟨x, hx, qx⟩ := atActivation_quiet P s
  refine ⟨⟨key, ?_⟩, ?_, ?_⟩
  · rintro ⟨c, h, hf⟩
    rw [(renderAndSwapBuffers_of_fail P s c h hf).1]
  · intro h
    rw [renderAndSwapBuffers_of_none P s h]
    refine ⟨rfl, by simp [eventsSince], ?_⟩
    rw [eventsSince_of_append s _ x hx, qx]
  · intro hr
    obtain ⟨c, h, hf⟩ := key hr
    have h2 := renderAndSwapBuffers_of_fail P s c h hf
    refine ⟨⟨c, h, ?_⟩, ?_⟩
    · rw [h2.1]
      simp [eventsSince, h2.2]
    · rw [h2.1, eventsSince_of_append s _ (x ++ [Event.makeActive c.handle false])
        (by rw [h2.2, hx, List.append_assoc]), List.filter_append, qx]
      rfl

end JuceOpenGL
